import Mathlib

/-!
# Teku consensus-layer client launcher

A shallow embedding of `kurtosis-module/impl/participant_network/cl/teku/teku_launcher.go`
and the properties of its container-configuration supplier and of `Launch`.

Conventions of the embedding.

* A Go `string` is a Lean `String`; `strings.Join(xs, " ")` is `String.intercalate " " xs`;
  `fmt.Sprintf` with `%v` verbs is string concatenation, an unsigned integer being
  rendered in decimal (`toString`).
* A Go result pair `(*T, error)` returned by the launcher's own functions is kept as a
  pair of options (`none` is `nil`), so that "nil context and non-nil error" is a statement
  and not a typing fact.  A collaborator that returns `(*T, error)` is an `Except`, and
  one that returns only `error` an `Option Error`.
* The collaborators (file copies, the scheduler, the availability waiter, the REST
  client) are parameters: state transformers over an arbitrary world type `σ`.  The
  launcher's functions thread the world through them in program order, and record every
  collaborator call they issue in a call log.
-/

namespace Teku

/-! ## Data model -/

/-- Go `error` values: one produced by a collaborator, one created by
`stacktrace.NewError`, or one wrapped by `stacktrace.Propagate`. -/
inductive Error where
  | external (msg : String)
  | newError (msg : String)
  | propagate (cause : Error) (msg : String)
  deriving DecidableEq, Repr

/-- Transport protocol of a port (`services.PortProtocol_TCP`, `services.PortProtocol_UDP`). -/
inductive PortProtocol where
  | TCP
  | UDP
  deriving DecidableEq, Repr

/-- The value `services.NewPortSpec(number, protocol)` builds; `number` is a `uint16`. -/
structure PortSpec where
  number : Nat
  protocol : PortProtocol
  deriving DecidableEq, Repr

/-- Constructor `services.NewPortSpec`. -/
def NewPortSpec (number : Nat) (protocol : PortProtocol) : PortSpec :=
  { number := number, protocol := protocol }

/-- Accessor `PortSpec.GetNumber`. -/
def PortSpec.GetNumber (p : PortSpec) : Nat := p.number

/-- A `services.SharedPath`: one location with its absolute path as the launcher (module
container) sees it and as the new service container sees it. -/
structure SharedPath where
  absPathOnThisContainer : String
  absPathOnServiceContainer : String
  deriving DecidableEq, Repr

/-- Accessor `SharedPath.GetAbsPathOnThisContainer`. -/
def SharedPath.GetAbsPathOnThisContainer (p : SharedPath) : String := p.absPathOnThisContainer

/-- Accessor `SharedPath.GetAbsPathOnServiceContainer`. -/
def SharedPath.GetAbsPathOnServiceContainer (p : SharedPath) : String :=
  p.absPathOnServiceContainer

/-- Method `SharedPath.GetChildPath`: the child is derived in both views with the platform's
path-joining function, which is a parameter here. -/
def SharedPath.GetChildPath (filepathJoin : String → String → String) (p : SharedPath)
    (pathElement : String) : SharedPath :=
  { absPathOnThisContainer := filepathJoin p.absPathOnThisContainer pathElement
    absPathOnServiceContainer := filepathJoin p.absPathOnServiceContainer pathElement }

/-- Modelled from the spec: the consensus-layer client context (`cl.CLClientContext`, built by
`cl.NewCLClientContext`), whose declaration is outside the launcher's file: identity record,
private network address and control-plane port number. -/
structure CLClientContext where
  enr : String
  ipAddr : String
  httpPortNum : Nat
  deriving DecidableEq, Repr

/-- Constructor `cl.NewCLClientContext`. -/
def NewCLClientContext (enr ipAddr : String) (httpPortNum : Nat) : CLClientContext :=
  { enr := enr, ipAddr := ipAddr, httpPortNum := httpPortNum }

/-- Accessor `CLClientContext.GetENR`. -/
def CLClientContext.GetENR (c : CLClientContext) : String := c.enr

/-- Modelled from the spec: the execution-layer peer context (`el.ELClientContext`), whose
declaration is outside the launcher's file: the peer's address and its RPC port, an unsigned
integer. -/
structure ELClientContext where
  ipAddr : String
  rpcPortNum : Nat
  deriving DecidableEq, Repr

/-- Accessor `ELClientContext.GetIPAddress`. -/
def ELClientContext.GetIPAddress (c : ELClientContext) : String := c.ipAddr

/-- Accessor `ELClientContext.GetRPCPortNum`. -/
def ELClientContext.GetRPCPortNum (c : ELClientContext) : Nat := c.rpcPortNum

/-- The two fields of `prelaunch_data_generator.NodeTypeKeystoreDirpaths` that the launcher
reads. -/
structure NodeTypeKeystoreDirpaths where
  TekuKeysDirpath : String
  TekuSecretsDirpath : String
  deriving DecidableEq, Repr

/-- The container description that `services.NewContainerConfigBuilder(..).With..().Build()`
produces: image, port table (a Go map, kept as an association list in source order),
entrypoint override and command override. -/
structure ContainerConfig where
  image : String
  usedPorts : List (String × PortSpec)
  entrypointOverrideArgs : List String
  cmdOverrideArgs : List String
  deriving DecidableEq, Repr

/-- The running-instance handle (`services.ServiceContext`) the scheduler returns. -/
structure ServiceContext where
  privateIpAddr : String
  privatePorts : List (String × PortSpec)
  deriving DecidableEq, Repr

/-- Accessor `ServiceContext.GetPrivateIPAddress`. -/
def ServiceContext.GetPrivateIPAddress (s : ServiceContext) : String := s.privateIpAddr

/-- Accessor `ServiceContext.GetPrivatePorts`. -/
def ServiceContext.GetPrivatePorts (s : ServiceContext) : List (String × PortSpec) :=
  s.privatePorts

/-- The REST client value `cl_client_rest_client.NewCLClientRESTClient(ipAddr, portNum)`
holds. -/
structure CLClientRESTClient where
  ipAddr : String
  portNum : Nat
  deriving DecidableEq, Repr

/-- Constructor `cl_client_rest_client.NewCLClientRESTClient`. -/
def NewCLClientRESTClient (ipAddr : String) (portNum : Nat) : CLClientRESTClient :=
  { ipAddr := ipAddr, portNum := portNum }

/-- The part of the identity response the launcher reads. -/
structure NodeIdentity where
  ENR : String
  deriving DecidableEq, Repr

/-- The launcher value built by `NewTekuCLClientLauncher`. -/
structure TekuCLClientLauncher where
  genesisConfigYmlFilepathOnModuleContainer : String
  genesisSszFilepathOnModuleContainer : String
  deriving DecidableEq, Repr

/-- Constructor `NewTekuCLClientLauncher`. -/
def NewTekuCLClientLauncher (genesisConfigYmlFilepathOnModuleContainer : String)
    (genesisSszFilepathOnModuleContainer : String) : TekuCLClientLauncher :=
  { genesisConfigYmlFilepathOnModuleContainer := genesisConfigYmlFilepathOnModuleContainer
    genesisSszFilepathOnModuleContainer := genesisSszFilepathOnModuleContainer }

/-! ## Constants -/

def imageName : String := "consensys/teku:latest"
def tekuBinaryFilepathInImage : String := "/opt/teku/bin/teku"
def consensusDataDirpathOnServiceContainer : String := "/opt/teku/consensus-data"
def validatingRewardsAccount : String := "0x0000000000000000000000000000000000000001"

def tcpDiscoveryPortID : String := "tcp-discovery"
def udpDiscoveryPortID : String := "udp-discovery"
def httpPortID : String := "http"

def discoveryPortNum : Nat := 9000
def httpPortNum : Nat := 4000

def genesisConfigYmlRelFilepathInSharedDir : String := "genesis-config.yml"
def genesisSszRelFilepathInSharedDir : String := "genesis.ssz"

def validatorKeysDirpathRelToSharedDirRoot : String := "validator-keys"
def validatorSecretsDirpathRelToSharedDirRoot : String := "validator-secrets"

def destValidatorKeysDirpathInServiceContainer : String := "$HOME/validator-keys"
def destValidatorSecretsDirpathInServiceContainer : String := "$HOME/validator-secrets"

def maxNumHealthcheckRetries : Nat := 60
/-- The constant `1 * time.Second`, in nanoseconds. -/
def timeBetweenHealthcheckRetries : Nat := 1 * 1000000000

/-- The port table `usedPorts`. -/
def usedPorts : List (String × PortSpec) :=
  [ (tcpDiscoveryPortID, NewPortSpec discoveryPortNum PortProtocol.TCP),
    (udpDiscoveryPortID, NewPortSpec discoveryPortNum PortProtocol.UDP),
    (httpPortID, NewPortSpec httpPortNum PortProtocol.TCP) ]

/-! ## Collaborators and call logs -/

/-- A copy the supplier asks of the staging utilities: `CopyFileToSharedPath(src, dst)` or
the recursive directory copy `recursive_copy.Copy(src, dst)`. -/
inductive StagingCall where
  | copyFile (src : String) (dst : SharedPath)
  | copyDir (src : String) (dst : String)
  deriving DecidableEq, Repr

/-- What one run of the container-config supplier returns, the pair `(config, err)`, together
with the copies it issued, in order, and the world it leaves. -/
structure SupplierResult (σ : Type) where
  config : Option ContainerConfig
  err : Option Error
  calls : List StagingCall
  state : σ

/-- The type of the supplier closure handed to the scheduler. -/
abbrev ContainerConfigSupplier (σ : Type) : Type :=
  String → SharedPath → σ → SupplierResult σ

/-- The external collaborators of the launcher, over a world of type `σ`. -/
structure Collaborators (σ : Type) where
  /-- `filepath.Join`, used by `SharedPath.GetChildPath`. -/
  filepathJoin : String → String → String
  /-- `service_launch_utils.CopyFileToSharedPath(src, dst)`. -/
  CopyFileToSharedPath : String → SharedPath → σ → Option Error × σ
  /-- `recursive_copy.Copy(src, dst)`. -/
  recursiveCopy : String → String → σ → Option Error × σ
  /-- `enclaveCtx.AddService(serviceId, supplier)`. -/
  AddService : String → ContainerConfigSupplier σ → σ → Except Error ServiceContext × σ
  /-- `availability_waiter.WaitForCLClientAvailability(client, retries, interval)`. -/
  WaitForCLClientAvailability : CLClientRESTClient → Nat → Nat → σ → Option Error × σ
  /-- `restClient.GetNodeIdentity()`. -/
  GetNodeIdentity : CLClientRESTClient → σ → Except Error NodeIdentity × σ

/-! ## The container-config supplier -/

/-- The value of `elClientRpcUrlStr`: `fmt.Sprintf("http://%v:%v", ip, port)`. -/
def elClientRpcUrlStr (elClientContext : ELClientContext) : String :=
  "http://" ++ elClientContext.GetIPAddress ++ ":" ++ toString elClientContext.GetRPCPortNum

/-- The slice `cmdArgs` as it stands when `strings.Join` is called. -/
def cmdArgs (bootnodeContext : Option CLClientContext) (elClientContext : ELClientContext)
    (privateIpAddr : String)
    (genesisConfigYmlSharedPath genesisSszSharedPath : SharedPath)
    (validatorKeysSharedPath validatorSecretsSharedPath : SharedPath) : List String :=
  let elClientRpcUrlStr := elClientRpcUrlStr elClientContext
  let cmdArgs : List String := [
    "cp",
    "-R",
    validatorKeysSharedPath.GetAbsPathOnServiceContainer,
    destValidatorKeysDirpathInServiceContainer,
    "&&",
    "cp",
    "-R",
    validatorSecretsSharedPath.GetAbsPathOnServiceContainer,
    destValidatorSecretsDirpathInServiceContainer,
    "&&",
    tekuBinaryFilepathInImage,
    "--network=" ++ genesisConfigYmlSharedPath.GetAbsPathOnServiceContainer,
    "--initial-state=" ++ genesisSszSharedPath.GetAbsPathOnServiceContainer,
    "--data-path=" ++ consensusDataDirpathOnServiceContainer,
    "--data-storage-mode=PRUNE",
    "--p2p-enabled=true",
    "--eth1-endpoints=" ++ elClientRpcUrlStr,
    "--Xee-endpoint=" ++ elClientRpcUrlStr,
    "--p2p-advertised-ip=" ++ privateIpAddr,
    "--rest-api-enabled=true",
    "--rest-api-docs-enabled=true",
    "--rest-api-interface=0.0.0.0",
    "--rest-api-port=" ++ toString httpPortNum,
    "--rest-api-host-allowlist=*",
    "--data-storage-non-canonical-blocks-enabled=true",
    "--log-destination=CONSOLE",
    "--validator-keys=" ++ destValidatorKeysDirpathInServiceContainer ++ ":"
      ++ destValidatorSecretsDirpathInServiceContainer,
    "--Xvalidators-suggested-fee-recipient-address=" ++ validatingRewardsAccount ]
  match bootnodeContext with
  | some bootnode => cmdArgs ++ ["--p2p-discovery-bootnodes=" ++ bootnode.GetENR]
  | none => cmdArgs

/-- The closure `getContainerConfigSupplier` returns.  The four copies are issued in program
order, each on the world the previous one left; the first error ends the run. -/
def getContainerConfigSupplier {σ : Type} (env : Collaborators σ)
    (bootnodeContext : Option CLClientContext)
    (elClientContext : ELClientContext)
    (genesisConfigYmlFilepathOnModuleContainer : String)
    (genesisSszFilepathOnModuleContainer : String)
    (validatorKeysDirpathOnModuleContainer : String)
    (validatorSecretsDirpathOnModuleContainer : String) : ContainerConfigSupplier σ :=
  fun privateIpAddr sharedDir st0 =>
    let genesisConfigYmlSharedPath :=
      sharedDir.GetChildPath env.filepathJoin genesisConfigYmlRelFilepathInSharedDir
    let call1 :=
      StagingCall.copyFile genesisConfigYmlFilepathOnModuleContainer genesisConfigYmlSharedPath
    match env.CopyFileToSharedPath genesisConfigYmlFilepathOnModuleContainer
        genesisConfigYmlSharedPath st0 with
    | (some err, st1) =>
      { config := none
        err := some (Error.propagate err
          ("An error occurred copying the genesis config YML from '"
            ++ genesisConfigYmlFilepathOnModuleContainer
            ++ "' to shared dir relative path '"
            ++ genesisConfigYmlRelFilepathInSharedDir ++ "'"))
        calls := [call1]
        state := st1 }
    | (none, st1) =>
    let genesisSszSharedPath :=
      sharedDir.GetChildPath env.filepathJoin genesisSszRelFilepathInSharedDir
    let call2 := StagingCall.copyFile genesisSszFilepathOnModuleContainer genesisSszSharedPath
    match env.CopyFileToSharedPath genesisSszFilepathOnModuleContainer
        genesisSszSharedPath st1 with
    | (some err, st2) =>
      { config := none
        err := some (Error.propagate err
          ("An error occurred copying the genesis SSZ from '"
            ++ genesisSszFilepathOnModuleContainer
            ++ "' to shared dir relative path '"
            ++ genesisSszRelFilepathInSharedDir ++ "'"))
        calls := [call1, call2]
        state := st2 }
    | (none, st2) =>
    let validatorKeysSharedPath :=
      sharedDir.GetChildPath env.filepathJoin validatorKeysDirpathRelToSharedDirRoot
    let call3 := StagingCall.copyDir validatorKeysDirpathOnModuleContainer
      validatorKeysSharedPath.GetAbsPathOnThisContainer
    match env.recursiveCopy validatorKeysDirpathOnModuleContainer
        validatorKeysSharedPath.GetAbsPathOnThisContainer st2 with
    | (some err, st3) =>
      { config := none
        err := some (Error.propagate err
          "An error occurred copying the validator keys into the shared directory so the node can consume them")
        calls := [call1, call2, call3]
        state := st3 }
    | (none, st3) =>
    let validatorSecretsSharedPath :=
      sharedDir.GetChildPath env.filepathJoin validatorSecretsDirpathRelToSharedDirRoot
    let call4 := StagingCall.copyDir validatorSecretsDirpathOnModuleContainer
      validatorSecretsSharedPath.GetAbsPathOnThisContainer
    match env.recursiveCopy validatorSecretsDirpathOnModuleContainer
        validatorSecretsSharedPath.GetAbsPathOnThisContainer st3 with
    | (some err, st4) =>
      { config := none
        err := some (Error.propagate err
          "An error occurred copying the validator secrets into the shared directory so the node can consume them")
        calls := [call1, call2, call3, call4]
        state := st4 }
    | (none, st4) =>
    let cmdArgs := cmdArgs bootnodeContext elClientContext privateIpAddr
      genesisConfigYmlSharedPath genesisSszSharedPath
      validatorKeysSharedPath validatorSecretsSharedPath
    let cmdStr := String.intercalate " " cmdArgs
    let containerConfig : ContainerConfig :=
      { image := imageName
        usedPorts := usedPorts
        entrypointOverrideArgs := ["sh", "-c"]
        cmdOverrideArgs := [cmdStr] }
    { config := some containerConfig
      err := none
      calls := [call1, call2, call3, call4]
      state := st4 }

/-! ## Launch -/

/-- A call `Launch` issues, in the order of the log: the scheduler call, the look-up of a port
name in the returned handle, the availability wait (which is where liveness requests are
sent) and the identity query. -/
inductive LaunchCall where
  | addService (serviceId : String)
  | portLookup (portId : String)
  | waitForAvailability (client : CLClientRESTClient) (maxNumRetries : Nat)
      (timeBetweenRetries : Nat)
  | getNodeIdentity (client : CLClientRESTClient)
  deriving DecidableEq, Repr

/-- What `Launch` returns, the pair `(resultClientCtx, resultErr)`, together with the calls it
issued, in order, and the world it leaves. -/
structure LaunchResult (σ : Type) where
  resultClientCtx : Option CLClientContext
  resultErr : Option Error
  calls : List LaunchCall
  state : σ

/-- The method `TekuCLClientLauncher.Launch`; `env` stands for the enclave context and the
other collaborators. -/
def Launch {σ : Type} (env : Collaborators σ) (launcher : TekuCLClientLauncher)
    (serviceId : String)
    (bootnodeContext : Option CLClientContext)
    (elClientContext : ELClientContext)
    (nodeKeystoreDirpaths : NodeTypeKeystoreDirpaths) (st0 : σ) : LaunchResult σ :=
  let containerConfigSupplier := getContainerConfigSupplier env
    bootnodeContext
    elClientContext
    launcher.genesisConfigYmlFilepathOnModuleContainer
    launcher.genesisSszFilepathOnModuleContainer
    nodeKeystoreDirpaths.TekuKeysDirpath
    nodeKeystoreDirpaths.TekuSecretsDirpath
  let call1 := LaunchCall.addService serviceId
  match env.AddService serviceId containerConfigSupplier st0 with
  | (Except.error err, st1) =>
    { resultClientCtx := none
      resultErr := some (Error.propagate err
        ("An error occurred launching the Teku CL client with service ID '"
          ++ serviceId ++ "'"))
      calls := [call1]
      state := st1 }
  | (Except.ok serviceCtx, st1) =>
  let call2 := LaunchCall.portLookup httpPortID
  match serviceCtx.GetPrivatePorts.lookup httpPortID with
  | none =>
    { resultClientCtx := none
      resultErr := some (Error.newError
        ("Expected new Teku service to have port with ID '" ++ httpPortID
          ++ "', but none was found"))
      calls := [call1, call2]
      state := st1 }
  | some httpPort =>
  let restClient := NewCLClientRESTClient serviceCtx.GetPrivateIPAddress httpPort.GetNumber
  let call3 := LaunchCall.waitForAvailability restClient maxNumHealthcheckRetries
    timeBetweenHealthcheckRetries
  match env.WaitForCLClientAvailability restClient maxNumHealthcheckRetries
      timeBetweenHealthcheckRetries st1 with
  | (some err, st2) =>
    { resultClientCtx := none
      resultErr := some (Error.propagate err
        "An error occurred waiting for the new Teku node to become available")
      calls := [call1, call2, call3]
      state := st2 }
  | (none, st2) =>
  let call4 := LaunchCall.getNodeIdentity restClient
  match env.GetNodeIdentity restClient st2 with
  | (Except.error err, st3) =>
    { resultClientCtx := none
      resultErr := some (Error.propagate err
        "An error occurred getting the new Teku node's identity, which is necessary to retrieve its ENR")
      calls := [call1, call2, call3, call4]
      state := st3 }
  | (Except.ok nodeIdentity, st3) =>
    let result := NewCLClientContext
      nodeIdentity.ENR
      serviceCtx.GetPrivateIPAddress
      httpPortNum
    { resultClientCtx := some result
      resultErr := none
      calls := [call1, call2, call3, call4]
      state := st3 }

/-! ## Vocabulary of the properties -/

/-- The stages of a launch that call a collaborator. -/
inductive Stage where
  | scheduling
  | portCheck
  | waitingForAvailability
  | resolvingIdentity
  deriving DecidableEq, Repr

/-- The stage a call of `Launch` belongs to. -/
def LaunchCall.stage : LaunchCall → Stage
  | LaunchCall.addService _ => Stage.scheduling
  | LaunchCall.portLookup _ => Stage.portCheck
  | LaunchCall.waitForAvailability _ _ _ => Stage.waitingForAvailability
  | LaunchCall.getNodeIdentity _ => Stage.resolvingIdentity

/-- Substring test, as `strings.Contains(s, substr)`. -/
def strContains (s substr : String) : Prop := substr.data <:+: s.data

instance (s substr : String) : Decidable (strContains s substr) :=
  inferInstanceAs (Decidable (substr.data <:+: s.data))

/-- The command string `cmdStr` that the supplier assembles once its four copies have
succeeded. -/
def cmdStrOf (filepathJoin : String → String → String)
    (bootnodeContext : Option CLClientContext) (elClientContext : ELClientContext)
    (privateIpAddr : String) (sharedDir : SharedPath) : String :=
  String.intercalate " " (cmdArgs bootnodeContext elClientContext privateIpAddr
    (sharedDir.GetChildPath filepathJoin genesisConfigYmlRelFilepathInSharedDir)
    (sharedDir.GetChildPath filepathJoin genesisSszRelFilepathInSharedDir)
    (sharedDir.GetChildPath filepathJoin validatorKeysDirpathRelToSharedDirRoot)
    (sharedDir.GetChildPath filepathJoin validatorSecretsDirpathRelToSharedDirRoot))

/-- The end of the command line: a space and the bootnode argument when a bootnode context
is given, nothing otherwise. -/
def bootnodeSuffix : Option CLClientContext → String
  | some bootnode => " --p2p-discovery-bootnodes=" ++ bootnode.GetENR
  | none => ""

/-- The collaborator call behind a staging call. -/
def StagingCall.run {σ : Type} (env : Collaborators σ) : StagingCall → σ → Option Error × σ
  | StagingCall.copyFile src dst => env.CopyFileToSharedPath src dst
  | StagingCall.copyDir src dst => env.recursiveCopy src dst

/-- The outcomes of a list of staging calls issued one after the other from the world `st`. -/
def stagingOutcomes {σ : Type} (env : Collaborators σ) : List StagingCall → σ → List (Option Error)
  | [], _ => []
  | c :: cs, st => (c.run env st).1 :: stagingOutcomes env cs (c.run env st).2

/-- The four copies of a complete staging, in the order genesis config file, genesis state
file, validator keys directory, validator secrets directory. -/
def stagingPlan (filepathJoin : String → String → String)
    (genesisConfigYmlFilepathOnModuleContainer genesisSszFilepathOnModuleContainer : String)
    (validatorKeysDirpathOnModuleContainer validatorSecretsDirpathOnModuleContainer : String)
    (sharedDir : SharedPath) : List StagingCall :=
  [ StagingCall.copyFile genesisConfigYmlFilepathOnModuleContainer
      (sharedDir.GetChildPath filepathJoin "genesis-config.yml"),
    StagingCall.copyFile genesisSszFilepathOnModuleContainer
      (sharedDir.GetChildPath filepathJoin "genesis.ssz"),
    StagingCall.copyDir validatorKeysDirpathOnModuleContainer
      (sharedDir.GetChildPath filepathJoin "validator-keys").absPathOnThisContainer,
    StagingCall.copyDir validatorSecretsDirpathOnModuleContainer
      (sharedDir.GetChildPath filepathJoin "validator-secrets").absPathOnThisContainer ]

/-- The values that fill the placeholders of the command line as the interface section of the
specification documents it. -/
structure DocumentedFields where
  keysSrc : String
  keysDst : String
  secretsSrc : String
  secretsDst : String
  binary : String
  networkPath : String
  initialStatePath : String
  dataDir : String
  eth1Url : String
  eeUrl : String
  ip : String
  port : String
  validatorKeysDst : String
  validatorSecretsDst : String
  feeRecipient : String
  enr : Option String

/-- The documented command line, written from the specification's words: `cp -R <keys-src>
<keys-dst> && cp -R <secrets-src> <secrets-dst> && <binary> --network=<path>
--initial-state=<path> --data-path=<dir> --data-storage-mode=PRUNE --p2p-enabled=true
--eth1-endpoints=<url> --ee-endpoint=<url> --p2p-advertised-ip=<ip> --rest-api-enabled=true
--rest-api-interface=0.0.0.0 --rest-api-port=<port> --rest-api-host-allowlist=*
--validator-keys=<keysDst>:<secretsDst> --fee-recipient=<addr>
[--p2p-discovery-bootnodes=<enr>]`. -/
def documentedCmdArgs (f : DocumentedFields) : List String :=
  [ "cp", "-R", f.keysSrc, f.keysDst, "&&",
    "cp", "-R", f.secretsSrc, f.secretsDst, "&&",
    f.binary,
    "--network=" ++ f.networkPath,
    "--initial-state=" ++ f.initialStatePath,
    "--data-path=" ++ f.dataDir,
    "--data-storage-mode=PRUNE",
    "--p2p-enabled=true",
    "--eth1-endpoints=" ++ f.eth1Url,
    "--ee-endpoint=" ++ f.eeUrl,
    "--p2p-advertised-ip=" ++ f.ip,
    "--rest-api-enabled=true",
    "--rest-api-interface=0.0.0.0",
    "--rest-api-port=" ++ f.port,
    "--rest-api-host-allowlist=*",
    "--validator-keys=" ++ f.validatorKeysDst ++ ":" ++ f.validatorSecretsDst,
    "--fee-recipient=" ++ f.feeRecipient ]
  ++ (match f.enr with
      | some enr => ["--p2p-discovery-bootnodes=" ++ enr]
      | none => [])

/-! ## Concrete collaborators, for evaluating the launcher -/

/-- A path join that puts a slash between directory and element. -/
def slashJoin (dir elem : String) : String := dir ++ "/" ++ elem

/-- A scheduler that runs the supplier once, with the given address and shared directory, and
answers with a handle that lists the ports `ports`. -/
def scheduleWith {σ : Type} (ip : String) (sharedDir : SharedPath)
    (ports : ContainerConfig → List (String × PortSpec)) :
    String → ContainerConfigSupplier σ → σ → Except Error ServiceContext × σ :=
  fun _ supplier st =>
    match supplier ip sharedDir st with
    | { config := some cfg, err := none, calls := _, state := st1 } =>
      (Except.ok { privateIpAddr := ip, privatePorts := ports cfg }, st1)
    | { config := _, err := some e, calls := _, state := st1 } => (Except.error e, st1)
    | { config := none, err := none, calls := _, state := st1 } =>
      (Except.error (Error.external "the supplier returned nothing"), st1)

/-- A script for the collaborators: which copy fails (counting from 0 in the world, a
counter of the copies made), what ports the handle lists, and what the waiter and the identity
query answer. -/
structure Script where
  failingCopy : Option Nat
  ports : ContainerConfig → List (String × PortSpec)
  waitResult : Option Error
  identityResult : Except Error NodeIdentity

/-- The collaborators that follow a script.  The world is the number of copies made. -/
def scriptedEnv (s : Script) : Collaborators Nat :=
  { filepathJoin := slashJoin
    CopyFileToSharedPath := fun _ _ n =>
      (if s.failingCopy = some n then some (Error.external "copy failed") else none, n + 1)
    recursiveCopy := fun _ _ n =>
      (if s.failingCopy = some n then some (Error.external "copy failed") else none, n + 1)
    AddService := scheduleWith "172.16.0.7"
      { absPathOnThisContainer := "/module/shared", absPathOnServiceContainer := "/service/shared" }
      s.ports
    WaitForCLClientAvailability := fun _ _ _ n => (s.waitResult, n)
    GetNodeIdentity := fun _ n => (s.identityResult, n) }

/-- Every collaborator succeeds and the handle lists the ports of the description. -/
def happyScript : Script :=
  { failingCopy := none
    ports := fun cfg => cfg.usedPorts
    waitResult := none
    identityResult := Except.ok { ENR := "enr:NEW" } }

/-- An execution-layer peer at `10.0.0.5:8551`. -/
def samplePeer : ELClientContext := { ipAddr := "10.0.0.5", rpcPortNum := 8551 }

/-- A previously launched node whose identity record is `enr:ABC`. -/
def sampleBootnode : CLClientContext :=
  { enr := "enr:ABC", ipAddr := "172.16.0.6", httpPortNum := 4000 }

/-- A shared directory. -/
def sampleSharedDir : SharedPath :=
  { absPathOnThisContainer := "/module/shared", absPathOnServiceContainer := "/service/shared" }

/-- A launcher with its two genesis artifacts. -/
def sampleLauncher : TekuCLClientLauncher :=
  NewTekuCLClientLauncher "/genesis/config.yml" "/genesis/genesis.ssz"

/-- The keystore directories of one node. -/
def sampleKeystore : NodeTypeKeystoreDirpaths :=
  { TekuKeysDirpath := "/keystores/teku-keys", TekuSecretsDirpath := "/keystores/teku-secrets" }

/-- One run of the supplier under a script: the launcher-side paths of `sampleLauncher` and
`sampleKeystore`, the peer `samplePeer`, private address `172.16.0.7`. -/
def sampleRun (s : Script) (bootnodeContext : Option CLClientContext) (sharedDir : SharedPath) :
    SupplierResult Nat :=
  getContainerConfigSupplier (scriptedEnv s) bootnodeContext samplePeer
    "/genesis/config.yml" "/genesis/genesis.ssz" "/keystores/teku-keys" "/keystores/teku-secrets"
    "172.16.0.7" sharedDir 0

/-! ## Lemmas on strings -/

theorem infix_sep {p : List Char} {c : Char} (hc : c ∉ p) :
    ∀ (a b : List Char), p <:+: a ++ c :: b → p <:+: a ∨ p <:+: b
  | [], b, h => by
    rcases List.infix_cons_iff.1 h with h | h
    · cases p with
      | nil => exact Or.inl List.nil_infix
      | cons x q =>
        have hx := (List.cons_prefix_cons.1 h).1
        subst hx
        exact absurd (List.mem_cons_self _ _) hc
    · exact Or.inr h
  | x :: a, b, h => by
    rcases List.infix_cons_iff.1 h with h | h
    · rcases List.prefix_or_prefix_of_prefix h (List.prefix_append (x :: a) (c :: b)) with h1 | h1
      · exact Or.inl h1.isInfix
      · obtain ⟨t, rfl⟩ := h1
        have ht : t <+: c :: b := (List.prefix_append_right_inj _).1 h
        cases t with
        | nil => exact Or.inl (by simp)
        | cons y q =>
          have hy := (List.cons_prefix_cons.1 ht).1
          subst hy
          exact absurd (by simp) hc
    · rcases infix_sep hc a b h with h | h
      · exact Or.inl (List.infix_cons h)
      · exact Or.inr h

theorem infix_intercalate_go {p : List Char} (hp : ' ' ∉ p) :
    ∀ (as : List String) (acc : String),
      p <:+: (String.intercalate.go acc " " as).data →
        p <:+: acc.data ∨ ∃ a, a ∈ as ∧ p <:+: a.data
  | [], acc, h => Or.inl (by simpa [String.intercalate.go] using h)
  | a :: as, acc, h => by
    rw [String.intercalate.go] at h
    rcases infix_intercalate_go hp as _ h with h | ⟨b, hb, h⟩
    · have h2 : p <:+: acc.data ++ ' ' :: a.data := by
        simpa [String.data_append] using h
      rcases infix_sep hp _ _ h2 with h3 | h3
      · exact Or.inl h3
      · exact Or.inr ⟨a, List.mem_cons_self _ _, h3⟩
    · exact Or.inr ⟨b, List.mem_cons_of_mem _ hb, h⟩

/-- A space-free string inside `strings.Join(args, " ")` lies inside one of the arguments. -/
theorem infix_intercalate {p : List Char} (hp : ' ' ∉ p) (hne : p ≠ []) (args : List String)
    (h : p <:+: (String.intercalate " " args).data) : ∃ a, a ∈ args ∧ p <:+: a.data := by
  cases args with
  | nil =>
    have : p <:+: [] := by simpa [String.intercalate] using h
    exact absurd (List.infix_nil.1 this) hne
  | cons a as =>
    rw [String.intercalate] at h
    rcases infix_intercalate_go hp as a h with h | ⟨b, hb, h⟩
    · exact ⟨a, List.mem_cons_self _ _, h⟩
    · exact ⟨b, List.mem_cons_of_mem _ hb, h⟩

theorem toDigitsCore_mem (fuel : Nat) : ∀ (n : Nat) (ds : List Char) (c : Char),
    c ∈ Nat.toDigitsCore 10 fuel n ds → c ∈ ds ∨ ∃ k, k < 10 ∧ c = Nat.digitChar k := by
  induction fuel with
  | zero => intro n ds c h; simp [Nat.toDigitsCore] at h; exact Or.inl h
  | succ f ih =>
    intro n ds c h
    simp only [Nat.toDigitsCore] at h
    split at h
    · rcases List.mem_cons.1 h with h | h
      · exact Or.inr ⟨n % 10, Nat.mod_lt _ (by decide), h⟩
      · exact Or.inl h
    · rcases ih _ _ _ h with h | h
      · rcases List.mem_cons.1 h with h | h
        · exact Or.inr ⟨n % 10, Nat.mod_lt _ (by decide), h⟩
        · exact Or.inl h
      · exact Or.inr h

/-- The decimal rendering of an unsigned integer has no minus sign. -/
theorem dash_not_mem_toString (n : Nat) : '-' ∉ (toString n).data := by
  intro h
  have h2 : '-' ∈ Nat.toDigitsCore 10 (n + 1) n [] := h
  rcases toDigitsCore_mem _ _ _ _ h2 with h3 | ⟨k, hk, h3⟩
  · simp at h3
  · interval_cases k <;> simp [Nat.digitChar] at h3

theorem bootnodeFlag_not_in_toString (n : Nat) :
    ¬ "--p2p-discovery-bootnodes=".data <:+: (toString n).data := by
  intro h
  exact dash_not_mem_toString n (h.subset (by decide))

theorem bootnodeFlag_not_in_url (flag : List Char) (e : ELClientContext)
    (hflag : ∀ rest, "--p2p-discovery-bootnodes=".data <:+: flag ++ rest →
      "--p2p-discovery-bootnodes=".data <:+: rest)
    (he : ¬ strContains e.ipAddr "--p2p-discovery-bootnodes=") :
    ¬ "--p2p-discovery-bootnodes=".data <:+: flag ++ (elClientRpcUrlStr e).data := by
  intro h
  have h2 : "--p2p-discovery-bootnodes=".data <:+:
      (flag ++ ("http://".data ++ e.ipAddr.data)) ++ ':' :: (toString e.rpcPortNum).data := by
    simpa [elClientRpcUrlStr, String.data_append, ELClientContext.GetIPAddress,
      ELClientContext.GetRPCPortNum] using h
  rcases infix_sep (by decide) _ _ h2 with h3 | h3
  · have h4 := hflag _ h3
    simp [List.infix_cons_iff, List.cons_prefix_cons] at h4
    exact he h4
  · exact bootnodeFlag_not_in_toString _ h3

/-! ## The supplier's result -/

/-- A run of the supplier that returns a description returns this one. -/
theorem supplier_config_some {σ : Type} (env : Collaborators σ)
    (b : Option CLClientContext) (e : ELClientContext) (g1 g2 k s ip : String)
    (sd : SharedPath) (st : σ) (cfg : ContainerConfig)
    (h : (getContainerConfigSupplier env b e g1 g2 k s ip sd st).config = some cfg) :
    cfg = { image := imageName, usedPorts := usedPorts,
            entrypointOverrideArgs := ["sh", "-c"],
            cmdOverrideArgs := [cmdStrOf env.filepathJoin b e ip sd] } := by
  unfold getContainerConfigSupplier at h
  simp only at h
  split at h
  · simp at h
  · split at h
    · simp at h
    · split at h
      · simp at h
      · split at h
        · simp at h
        · simp only [Option.some.injEq] at h
          rw [← h]; rfl

theorem intercalate_go_snoc (s a : String) : ∀ (l : List String) (acc : String),
    String.intercalate.go acc s (l ++ [a]) = String.intercalate.go acc s l ++ s ++ a
  | [], acc => by simp [String.intercalate.go]
  | b :: l, acc => by
    simp only [List.cons_append, String.intercalate.go]
    exact intercalate_go_snoc s a l _

theorem intercalate_snoc (s a b : String) (l : List String) :
    String.intercalate s (b :: l ++ [a]) = String.intercalate s (b :: l) ++ s ++ a := by
  simp only [String.intercalate, List.cons_append, intercalate_go_snoc]

theorem cmdArgs_some (bootnode : CLClientContext) (e : ELClientContext) (ip : String)
    (a1 a2 a3 a4 : SharedPath) :
    cmdArgs (some bootnode) e ip a1 a2 a3 a4 =
      cmdArgs none e ip a1 a2 a3 a4 ++ ["--p2p-discovery-bootnodes=" ++ bootnode.enr] := rfl

/-- The command with a bootnode context is the command without one, followed by a space and
the bootnode argument. -/
theorem cmdStrOf_some (j : String → String → String) (bootnode : CLClientContext)
    (e : ELClientContext) (ip : String) (sd : SharedPath) :
    cmdStrOf j (some bootnode) e ip sd =
      cmdStrOf j none e ip sd ++ " --p2p-discovery-bootnodes=" ++ bootnode.enr := by
  unfold cmdStrOf
  rw [cmdArgs_some]
  generalize hx : cmdArgs none e ip _ _ _ _ = args
  have hargs : ∃ b l, args = b :: l := by
    rw [← hx]; exact ⟨_, _, rfl⟩
  obtain ⟨b, l, rfl⟩ := hargs
  rw [intercalate_snoc]
  apply String.ext
  simp only [String.data_append, List.append_assoc]
  rfl

set_option maxRecDepth 100000 in
/-- The command without a bootnode context, written out. -/
theorem cmdStrOf_none (j : String → String → String) (e : ELClientContext) (ip : String)
    (sd : SharedPath) :
    cmdStrOf j none e ip sd =
      "cp -R " ++ j sd.absPathOnServiceContainer "validator-keys"
      ++ " $HOME/validator-keys && cp -R " ++ j sd.absPathOnServiceContainer "validator-secrets"
      ++ " $HOME/validator-secrets && /opt/teku/bin/teku --network="
      ++ j sd.absPathOnServiceContainer "genesis-config.yml"
      ++ " --initial-state=" ++ j sd.absPathOnServiceContainer "genesis.ssz"
      ++ " --data-path=/opt/teku/consensus-data --data-storage-mode=PRUNE --p2p-enabled=true --eth1-endpoints=http://"
      ++ e.ipAddr ++ ":" ++ toString e.rpcPortNum
      ++ " --Xee-endpoint=http://" ++ e.ipAddr ++ ":" ++ toString e.rpcPortNum
      ++ " --p2p-advertised-ip=" ++ ip
      ++ " --rest-api-enabled=true --rest-api-docs-enabled=true --rest-api-interface=0.0.0.0 --rest-api-port=4000 --rest-api-host-allowlist=* --data-storage-non-canonical-blocks-enabled=true --log-destination=CONSOLE --validator-keys=$HOME/validator-keys:$HOME/validator-secrets --Xvalidators-suggested-fee-recipient-address=0x0000000000000000000000000000000000000001" := by
  simp only [cmdStrOf, cmdArgs, String.intercalate, String.intercalate.go, elClientRpcUrlStr,
    SharedPath.GetChildPath, SharedPath.GetAbsPathOnServiceContainer,
    ELClientContext.GetIPAddress, ELClientContext.GetRPCPortNum,
    destValidatorKeysDirpathInServiceContainer, destValidatorSecretsDirpathInServiceContainer,
    tekuBinaryFilepathInImage, consensusDataDirpathOnServiceContainer, validatingRewardsAccount,
    genesisConfigYmlRelFilepathInSharedDir, genesisSszRelFilepathInSharedDir,
    validatorKeysDirpathRelToSharedDirRoot, validatorSecretsDirpathRelToSharedDirRoot, httpPortNum]
  apply String.ext
  simp only [String.data_append, List.append_assoc]
  rfl

/-- The command, written out. -/
theorem cmdStrOf_eq (j : String → String → String) (b : Option CLClientContext)
    (e : ELClientContext) (ip : String) (sd : SharedPath) :
    cmdStrOf j b e ip sd =
      "cp -R " ++ j sd.absPathOnServiceContainer "validator-keys"
      ++ " $HOME/validator-keys && cp -R " ++ j sd.absPathOnServiceContainer "validator-secrets"
      ++ " $HOME/validator-secrets && /opt/teku/bin/teku --network="
      ++ j sd.absPathOnServiceContainer "genesis-config.yml"
      ++ " --initial-state=" ++ j sd.absPathOnServiceContainer "genesis.ssz"
      ++ " --data-path=/opt/teku/consensus-data --data-storage-mode=PRUNE --p2p-enabled=true --eth1-endpoints=http://"
      ++ e.ipAddr ++ ":" ++ toString e.rpcPortNum
      ++ " --Xee-endpoint=http://" ++ e.ipAddr ++ ":" ++ toString e.rpcPortNum
      ++ " --p2p-advertised-ip=" ++ ip
      ++ " --rest-api-enabled=true --rest-api-docs-enabled=true --rest-api-interface=0.0.0.0 --rest-api-port=4000 --rest-api-host-allowlist=* --data-storage-non-canonical-blocks-enabled=true --log-destination=CONSOLE --validator-keys=$HOME/validator-keys:$HOME/validator-secrets --Xvalidators-suggested-fee-recipient-address=0x0000000000000000000000000000000000000001"
      ++ bootnodeSuffix b := by
  cases b with
  | none => simp only [cmdStrOf_none, bootnodeSuffix, String.append_empty]
  | some bootnode =>
    simp only [cmdStrOf_some, cmdStrOf_none, bootnodeSuffix, CLClientContext.GetENR,
      String.append_assoc]

set_option maxRecDepth 100000 in
/-- Without a bootnode context, the bootnode flag can only come from an input string. -/
theorem bootnodeFlag_not_in_cmdStrOf_none (j : String → String → String) (e : ELClientContext)
    (ip : String) (sd : SharedPath)
    (hip : ¬ strContains ip "--p2p-discovery-bootnodes=")
    (he : ¬ strContains e.GetIPAddress "--p2p-discovery-bootnodes=")
    (hsd : ∀ name, name ∈ ["genesis-config.yml", "genesis.ssz", "validator-keys",
        "validator-secrets"] →
      ¬ strContains (sd.GetChildPath j name).GetAbsPathOnServiceContainer
        "--p2p-discovery-bootnodes=") :
    ¬ strContains (cmdStrOf j none e ip sd) "--p2p-discovery-bootnodes=" := by
  intro h
  have h1 := hsd "genesis-config.yml" (by simp)
  have h2 := hsd "genesis.ssz" (by simp)
  have h3 := hsd "validator-keys" (by simp)
  have h4 := hsd "validator-secrets" (by simp)
  have hu1 := bootnodeFlag_not_in_url "--eth1-endpoints=".data e
    (fun rest hr => by
      simpa [List.infix_cons_iff, List.cons_prefix_cons] using hr) he
  have hu2 := bootnodeFlag_not_in_url "--Xee-endpoint=".data e
    (fun rest hr => by
      simpa [List.infix_cons_iff, List.cons_prefix_cons] using hr) he
  obtain ⟨a, ha, hp⟩ := infix_intercalate (by decide) (by decide) _ h
  simp only [strContains, SharedPath.GetChildPath, SharedPath.GetAbsPathOnServiceContainer] at h1 h2 h3 h4 hip
  simp only [cmdArgs, List.mem_cons, List.mem_singleton, List.not_mem_nil, or_false,
    genesisConfigYmlRelFilepathInSharedDir, genesisSszRelFilepathInSharedDir,
    validatorKeysDirpathRelToSharedDirRoot, validatorSecretsDirpathRelToSharedDirRoot,
    SharedPath.GetChildPath, SharedPath.GetAbsPathOnServiceContainer,
    destValidatorKeysDirpathInServiceContainer, destValidatorSecretsDirpathInServiceContainer,
    tekuBinaryFilepathInImage, consensusDataDirpathOnServiceContainer, validatingRewardsAccount,
    httpPortNum] at ha
  rcases ha with rfl | rfl | rfl | rfl | rfl | rfl | rfl | rfl | rfl | rfl | rfl | rfl | rfl
    | rfl | rfl | rfl | rfl | rfl | rfl | rfl | rfl | rfl | rfl | rfl | rfl | rfl | rfl | rfl
  all_goals first
    | exact absurd hp (by decide)
    | exact h3 hp
    | exact h4 hp
    | exact hu1 (by simpa [String.data_append] using hp)
    | exact hu2 (by simpa [String.data_append] using hp)
    | (simp only [String.data_append] at hp
       simp [List.infix_cons_iff, List.cons_prefix_cons] at hp
       first
        | exact h1 hp
        | exact h2 hp
        | exact hip hp)


/-! ## C1: the bootnode flag -/

set_option maxRecDepth 100000 in
/-- C1, as stated, fails: with no bootnode context and a shared directory whose in-container
path is `/service/a--p2p-discovery-bootnodes=b`, the run succeeds and the command string
contains `--p2p-discovery-bootnodes=`. -/
theorem bootnode_flag_absent_counterexample :
    ∃ cfg cmdStr,
      (sampleRun happyScript none
        { absPathOnThisContainer := "/module/shared"
          absPathOnServiceContainer := "/service/a--p2p-discovery-bootnodes=b" }).config
        = some cfg ∧
      cfg.cmdOverrideArgs = [cmdStr] ∧
      strContains cmdStr "--p2p-discovery-bootnodes=" :=
  ⟨_, _, rfl, rfl, by decide⟩

/-- C1 (amended): for every run of the supplier that returns a description, the command
override is one string; when the bootnode context is nil and none of the input strings put
into the command (the private address, the peer's address, the in-container paths of the four
shared children) contains `--p2p-discovery-bootnodes=`, the command string does not contain
it; when the bootnode context is non-nil with identity record E, the command string ends with
the argument `--p2p-discovery-bootnodes=` followed by exactly E. -/
theorem bootnode_flag_follows_context {σ : Type} (env : Collaborators σ)
    (bootnodeContext : Option CLClientContext) (elClientContext : ELClientContext)
    (genesisConfigYmlFilepathOnModuleContainer genesisSszFilepathOnModuleContainer : String)
    (validatorKeysDirpathOnModuleContainer validatorSecretsDirpathOnModuleContainer : String)
    (privateIpAddr : String) (sharedDir : SharedPath) (st : σ) (cfg : ContainerConfig)
    (h : (getContainerConfigSupplier env bootnodeContext elClientContext
      genesisConfigYmlFilepathOnModuleContainer genesisSszFilepathOnModuleContainer
      validatorKeysDirpathOnModuleContainer validatorSecretsDirpathOnModuleContainer
      privateIpAddr sharedDir st).config = some cfg) :
    ∃ cmdStr, cfg.cmdOverrideArgs = [cmdStr] ∧
      (bootnodeContext = none →
        ¬ strContains privateIpAddr "--p2p-discovery-bootnodes=" →
        ¬ strContains elClientContext.GetIPAddress "--p2p-discovery-bootnodes=" →
        (∀ name, name ∈ ["genesis-config.yml", "genesis.ssz", "validator-keys",
            "validator-secrets"] →
          ¬ strContains (sharedDir.GetChildPath env.filepathJoin name).GetAbsPathOnServiceContainer
            "--p2p-discovery-bootnodes=") →
        ¬ strContains cmdStr "--p2p-discovery-bootnodes=") ∧
      (∀ bootnode, bootnodeContext = some bootnode →
        ∃ pre, cmdStr = pre ++ " --p2p-discovery-bootnodes=" ++ bootnode.GetENR) := by
  have hcfg := supplier_config_some _ _ _ _ _ _ _ _ _ _ _ h
  subst hcfg
  refine ⟨_, rfl, ?_, ?_⟩
  · intro hb hip he hsd
    subst hb
    exact bootnodeFlag_not_in_cmdStrOf_none _ _ _ _ hip he hsd
  · intro bootnode hb
    subst hb
    exact ⟨_, cmdStrOf_some _ _ _ _ _⟩

set_option maxRecDepth 100000 in
/-- C1, at concrete inputs: peer `10.0.0.5:8551`, shared directory `/service/shared`; with no
bootnode context the command has no bootnode flag, and with the bootnode `enr:ABC` it ends
with `--p2p-discovery-bootnodes=enr:ABC`. -/
theorem bootnode_flag_follows_context_witness :
    (∃ cfg cmdStr, (sampleRun happyScript none sampleSharedDir).config = some cfg ∧
      cfg.cmdOverrideArgs = [cmdStr] ∧ ¬ strContains cmdStr "--p2p-discovery-bootnodes=") ∧
    (∃ cfg cmdStr pre, (sampleRun happyScript (some sampleBootnode) sampleSharedDir).config
        = some cfg ∧
      cfg.cmdOverrideArgs = [cmdStr] ∧
      cmdStr = pre ++ " --p2p-discovery-bootnodes=" ++ "enr:ABC") := by
  constructor
  · have hrun : (sampleRun happyScript none sampleSharedDir).config = some _ := rfl
    obtain ⟨cmdStr, hcmd, hnone, _⟩ := bootnode_flag_follows_context _ _ _ _ _ _ _ _ _ _ _ hrun
    exact ⟨_, cmdStr, hrun, hcmd, hnone rfl (by decide) (by decide) (by decide)⟩
  · have hrun : (sampleRun happyScript (some sampleBootnode) sampleSharedDir).config
        = some _ := rfl
    obtain ⟨cmdStr, hcmd, _, hsome⟩ := bootnode_flag_follows_context _ _ _ _ _ _ _ _ _ _ _ hrun
    obtain ⟨pre, hpre⟩ := hsome sampleBootnode rfl
    exact ⟨_, cmdStr, pre, hrun, hcmd, hpre⟩

/-! ## C2: the form of the command line -/

theorem infix_intercalate_go_acc (p : List Char) : ∀ (as : List String) (acc : String),
    p <:+: acc.data → p <:+: (String.intercalate.go acc " " as).data
  | [], acc, h => by simpa [String.intercalate.go] using h
  | a :: as, acc, h => by
    rw [String.intercalate.go]
    apply infix_intercalate_go_acc p as
    simp only [String.data_append, List.append_assoc]
    exact h.trans (List.prefix_append _ _).isInfix

theorem infix_intercalate_go_mem (p : List Char) : ∀ (as : List String) (acc a : String),
    a ∈ as → p <:+: a.data → p <:+: (String.intercalate.go acc " " as).data
  | b :: as, acc, a, hmem, hp => by
    rw [String.intercalate.go]
    rcases List.mem_cons.1 hmem with rfl | hmem
    · apply infix_intercalate_go_acc p as
      simp only [String.data_append]
      exact hp.trans (List.suffix_append _ _).isInfix
    · exact infix_intercalate_go_mem p as _ a hmem hp

/-- A string inside one of the arguments lies inside `strings.Join(args, " ")`. -/
theorem infix_intercalate_of_mem (p : List Char) (args : List String) (a : String)
    (hmem : a ∈ args) (hp : p <:+: a.data) : p <:+: (String.intercalate " " args).data := by
  cases args with
  | nil => simp at hmem
  | cons b as =>
    rw [String.intercalate]
    rcases List.mem_cons.1 hmem with rfl | hmem
    · exact infix_intercalate_go_acc p as _ hp
    · exact infix_intercalate_go_mem p as _ a hmem hp

/-- Whatever fills the placeholders, the documented command line names the flag
`--fee-recipient=`. -/
theorem documented_form_has_fee_recipient (f : DocumentedFields) :
    strContains (String.intercalate " " (documentedCmdArgs f)) "--fee-recipient=" := by
  apply infix_intercalate_of_mem _ _ ("--fee-recipient=" ++ f.feeRecipient)
  · simp [documentedCmdArgs]
  · simp only [String.data_append]
    exact (List.prefix_append _ _).isInfix

set_option maxRecDepth 100000 in
/-- C2, as stated, fails: in the run with peer `10.0.0.5:8551`, private address `172.16.0.7`
and no bootnode context, the command string is of the documented form for no values of the
placeholders (it has no `--fee-recipient=` flag). -/
theorem documented_form_counterexample :
    ∃ cfg cmdStr, (sampleRun happyScript none sampleSharedDir).config = some cfg ∧
      cfg.cmdOverrideArgs = [cmdStr] ∧
      ¬ ∃ f : DocumentedFields, cmdStr = String.intercalate " " (documentedCmdArgs f) := by
  refine ⟨_, cmdStrOf slashJoin none samplePeer "172.16.0.7" sampleSharedDir, rfl, rfl, ?_⟩
  rintro ⟨f, hf⟩
  have h := documented_form_has_fee_recipient f
  rw [← hf] at h
  obtain ⟨a, ha, hp⟩ := infix_intercalate (by decide) (by decide) _ h
  have hall : ∀ a ∈ cmdArgs none samplePeer "172.16.0.7"
      (sampleSharedDir.GetChildPath slashJoin genesisConfigYmlRelFilepathInSharedDir)
      (sampleSharedDir.GetChildPath slashJoin genesisSszRelFilepathInSharedDir)
      (sampleSharedDir.GetChildPath slashJoin validatorKeysDirpathRelToSharedDirRoot)
      (sampleSharedDir.GetChildPath slashJoin validatorSecretsDirpathRelToSharedDirRoot),
      ¬ "--fee-recipient=".data <:+: a.data := by decide
  exact hall a ha hp

/-- C2 (amended): for every run of the supplier that returns a description, the command is
the single shell line `cp -R <keys-src> $HOME/validator-keys && cp -R <secrets-src>
$HOME/validator-secrets && /opt/teku/bin/teku --network=<path> --initial-state=<path>
--data-path=/opt/teku/consensus-data --data-storage-mode=PRUNE --p2p-enabled=true
--eth1-endpoints=<url> --Xee-endpoint=<url> --p2p-advertised-ip=<ip> --rest-api-enabled=true
--rest-api-docs-enabled=true --rest-api-interface=0.0.0.0 --rest-api-port=4000
--rest-api-host-allowlist=* --data-storage-non-canonical-blocks-enabled=true
--log-destination=CONSOLE --validator-keys=$HOME/validator-keys:$HOME/validator-secrets
--Xvalidators-suggested-fee-recipient-address=0x0000000000000000000000000000000000000001`,
followed by ` --p2p-discovery-bootnodes=<enr>` exactly when a bootnode context is supplied;
the sources and paths are the in-container paths of the shared children and `<url>` is
`http://<peer address>:<peer RPC port>`. -/
theorem command_line_form {σ : Type} (env : Collaborators σ)
    (bootnodeContext : Option CLClientContext) (elClientContext : ELClientContext)
    (genesisConfigYmlFilepathOnModuleContainer genesisSszFilepathOnModuleContainer : String)
    (validatorKeysDirpathOnModuleContainer validatorSecretsDirpathOnModuleContainer : String)
    (privateIpAddr : String) (sharedDir : SharedPath) (st : σ) (cfg : ContainerConfig)
    (h : (getContainerConfigSupplier env bootnodeContext elClientContext
      genesisConfigYmlFilepathOnModuleContainer genesisSszFilepathOnModuleContainer
      validatorKeysDirpathOnModuleContainer validatorSecretsDirpathOnModuleContainer
      privateIpAddr sharedDir st).config = some cfg) :
    cfg.cmdOverrideArgs =
      [ "cp -R " ++ env.filepathJoin sharedDir.absPathOnServiceContainer "validator-keys"
        ++ " $HOME/validator-keys && cp -R "
        ++ env.filepathJoin sharedDir.absPathOnServiceContainer "validator-secrets"
        ++ " $HOME/validator-secrets && /opt/teku/bin/teku --network="
        ++ env.filepathJoin sharedDir.absPathOnServiceContainer "genesis-config.yml"
        ++ " --initial-state="
        ++ env.filepathJoin sharedDir.absPathOnServiceContainer "genesis.ssz"
        ++ " --data-path=/opt/teku/consensus-data --data-storage-mode=PRUNE --p2p-enabled=true --eth1-endpoints=http://"
        ++ elClientContext.ipAddr ++ ":" ++ toString elClientContext.rpcPortNum
        ++ " --Xee-endpoint=http://"
        ++ elClientContext.ipAddr ++ ":" ++ toString elClientContext.rpcPortNum
        ++ " --p2p-advertised-ip=" ++ privateIpAddr
        ++ " --rest-api-enabled=true --rest-api-docs-enabled=true --rest-api-interface=0.0.0.0 --rest-api-port=4000 --rest-api-host-allowlist=* --data-storage-non-canonical-blocks-enabled=true --log-destination=CONSOLE --validator-keys=$HOME/validator-keys:$HOME/validator-secrets --Xvalidators-suggested-fee-recipient-address=0x0000000000000000000000000000000000000001"
        ++ bootnodeSuffix bootnodeContext ] := by
  have hcfg := supplier_config_some _ _ _ _ _ _ _ _ _ _ _ h
  subst hcfg
  rw [cmdStrOf_eq]

set_option maxRecDepth 100000 in
/-- C2 (amended), at concrete inputs: with peer `10.0.0.5:8551`, private address
`172.16.0.7`, shared directory `/service/shared` and bootnode `enr:ABC`. -/
theorem command_line_form_witness :
    ∃ cfg, (sampleRun happyScript (some sampleBootnode) sampleSharedDir).config = some cfg ∧
      cfg.cmdOverrideArgs = ["cp -R /service/shared/validator-keys $HOME/validator-keys && cp -R /service/shared/validator-secrets $HOME/validator-secrets && /opt/teku/bin/teku --network=/service/shared/genesis-config.yml --initial-state=/service/shared/genesis.ssz --data-path=/opt/teku/consensus-data --data-storage-mode=PRUNE --p2p-enabled=true --eth1-endpoints=http://10.0.0.5:8551 --Xee-endpoint=http://10.0.0.5:8551 --p2p-advertised-ip=172.16.0.7 --rest-api-enabled=true --rest-api-docs-enabled=true --rest-api-interface=0.0.0.0 --rest-api-port=4000 --rest-api-host-allowlist=* --data-storage-non-canonical-blocks-enabled=true --log-destination=CONSOLE --validator-keys=$HOME/validator-keys:$HOME/validator-secrets --Xvalidators-suggested-fee-recipient-address=0x0000000000000000000000000000000000000001 --p2p-discovery-bootnodes=enr:ABC"] := by
  have hrun : (sampleRun happyScript (some sampleBootnode) sampleSharedDir).config
      = some _ := rfl
  exact ⟨_, hrun, (command_line_form _ _ _ _ _ _ _ _ _ _ _ hrun).trans (by decide)⟩

/-! ## C3: the peer URL under both endpoint flags -/

/-- Both endpoint arguments are substrings of a line that holds them one after the other. -/
theorem endpoint_flags_contained (pre url post : String) :
    strContains (pre ++ " --eth1-endpoints=" ++ url ++ " --Xee-endpoint=" ++ url ++ " " ++ post)
        ("--eth1-endpoints=" ++ url) ∧
    strContains (pre ++ " --eth1-endpoints=" ++ url ++ " --Xee-endpoint=" ++ url ++ " " ++ post)
        ("--Xee-endpoint=" ++ url) := by
  constructor
  · refine ⟨pre.data ++ [' '], (" --Xee-endpoint=" ++ url ++ " " ++ post).data, ?_⟩
    simp only [String.data_append, List.append_assoc]
    rfl
  · refine ⟨(pre ++ " --eth1-endpoints=" ++ url).data ++ [' '], (" " ++ post).data, ?_⟩
    simp only [String.data_append, List.append_assoc]
    rfl

set_option maxRecDepth 100000 in
/-- C3: for every run of the supplier that returns a description, with a peer at address A
and RPC port P, the command holds, each after a space and next to each other, the argument
`--eth1-endpoints=` and the argument `--Xee-endpoint=` (the execution-engine endpoint flag),
both followed by the same value `http://A:P` and then a space; so it contains
`--eth1-endpoints=http://A:P` and `--Xee-endpoint=http://A:P`. -/
theorem peer_url_under_both_flags {σ : Type} (env : Collaborators σ)
    (bootnodeContext : Option CLClientContext) (elClientContext : ELClientContext)
    (genesisConfigYmlFilepathOnModuleContainer genesisSszFilepathOnModuleContainer : String)
    (validatorKeysDirpathOnModuleContainer validatorSecretsDirpathOnModuleContainer : String)
    (privateIpAddr : String) (sharedDir : SharedPath) (st : σ) (cfg : ContainerConfig)
    (h : (getContainerConfigSupplier env bootnodeContext elClientContext
      genesisConfigYmlFilepathOnModuleContainer genesisSszFilepathOnModuleContainer
      validatorKeysDirpathOnModuleContainer validatorSecretsDirpathOnModuleContainer
      privateIpAddr sharedDir st).config = some cfg) :
    ∃ cmdStr url pre post,
      cfg.cmdOverrideArgs = [cmdStr] ∧
      url = "http://" ++ elClientContext.GetIPAddress ++ ":"
        ++ toString elClientContext.GetRPCPortNum ∧
      cmdStr = pre ++ " --eth1-endpoints=" ++ url ++ " --Xee-endpoint=" ++ url ++ " " ++ post ∧
      strContains cmdStr ("--eth1-endpoints=" ++ url) ∧
      strContains cmdStr ("--Xee-endpoint=" ++ url) := by
  have hcfg := supplier_config_some _ _ _ _ _ _ _ _ _ _ _ h
  subst hcfg
  have hform : cmdStrOf env.filepathJoin bootnodeContext elClientContext privateIpAddr sharedDir
      = ("cp -R " ++ env.filepathJoin sharedDir.absPathOnServiceContainer "validator-keys"
          ++ " $HOME/validator-keys && cp -R "
          ++ env.filepathJoin sharedDir.absPathOnServiceContainer "validator-secrets"
          ++ " $HOME/validator-secrets && /opt/teku/bin/teku --network="
          ++ env.filepathJoin sharedDir.absPathOnServiceContainer "genesis-config.yml"
          ++ " --initial-state="
          ++ env.filepathJoin sharedDir.absPathOnServiceContainer "genesis.ssz"
          ++ " --data-path=/opt/teku/consensus-data --data-storage-mode=PRUNE --p2p-enabled=true")
        ++ " --eth1-endpoints="
        ++ ("http://" ++ elClientContext.GetIPAddress ++ ":"
          ++ toString elClientContext.GetRPCPortNum)
        ++ " --Xee-endpoint="
        ++ ("http://" ++ elClientContext.GetIPAddress ++ ":"
          ++ toString elClientContext.GetRPCPortNum)
        ++ " "
        ++ ("--p2p-advertised-ip=" ++ privateIpAddr
          ++ " --rest-api-enabled=true --rest-api-docs-enabled=true --rest-api-interface=0.0.0.0 --rest-api-port=4000 --rest-api-host-allowlist=* --data-storage-non-canonical-blocks-enabled=true --log-destination=CONSOLE --validator-keys=$HOME/validator-keys:$HOME/validator-secrets --Xvalidators-suggested-fee-recipient-address=0x0000000000000000000000000000000000000001"
          ++ bootnodeSuffix bootnodeContext) := by
    rw [cmdStrOf_eq]
    apply String.ext
    simp only [String.data_append, List.append_assoc, ELClientContext.GetIPAddress,
      ELClientContext.GetRPCPortNum]
    rfl
  rw [hform]
  exact ⟨_, _, _, _, rfl, rfl, rfl, (endpoint_flags_contained _ _ _).1,
    (endpoint_flags_contained _ _ _).2⟩

set_option maxRecDepth 100000 in
/-- C3, at concrete inputs: with a peer at `10.0.0.5:8551` the command contains
`--eth1-endpoints=http://10.0.0.5:8551` and `--Xee-endpoint=http://10.0.0.5:8551`. -/
theorem peer_url_under_both_flags_witness :
    ∃ cfg cmdStr, (sampleRun happyScript none sampleSharedDir).config = some cfg ∧
      cfg.cmdOverrideArgs = [cmdStr] ∧
      strContains cmdStr "--eth1-endpoints=http://10.0.0.5:8551" ∧
      strContains cmdStr "--Xee-endpoint=http://10.0.0.5:8551" := by
  have hrun : (sampleRun happyScript none sampleSharedDir).config = some _ := rfl
  obtain ⟨cmdStr, url, pre, post, hcmd, hurl, _, h1, h2⟩ :=
    peer_url_under_both_flags _ _ _ _ _ _ _ _ _ _ _ hrun
  have hu : url = "http://10.0.0.5:8551" := hurl.trans (by decide)
  subst hu
  exact ⟨_, cmdStr, hrun, hcmd, h1, h2⟩

/-! ## C4: one shell invocation, copies first, fixed destinations -/

set_option maxRecDepth 100000 in
/-- C4: for every run of the supplier that returns a description, the entrypoint override is
exactly `sh`, `-c` and the command override is exactly one string, which begins with
`cp -R K $HOME/validator-keys && cp -R S $HOME/validator-secrets && /opt/teku/bin/teku `, K and
S being the in-container views of the shared `validator-keys` and `validator-secrets` paths;
after the binary the line holds the argument
`--validator-keys=$HOME/validator-keys:$HOME/validator-secrets` between spaces.  The
destinations and that argument are the same constants whatever the source paths are. -/
theorem copy_steps_precede_binary {σ : Type} (env : Collaborators σ)
    (bootnodeContext : Option CLClientContext) (elClientContext : ELClientContext)
    (genesisConfigYmlFilepathOnModuleContainer genesisSszFilepathOnModuleContainer : String)
    (validatorKeysDirpathOnModuleContainer validatorSecretsDirpathOnModuleContainer : String)
    (privateIpAddr : String) (sharedDir : SharedPath) (st : σ) (cfg : ContainerConfig)
    (h : (getContainerConfigSupplier env bootnodeContext elClientContext
      genesisConfigYmlFilepathOnModuleContainer genesisSszFilepathOnModuleContainer
      validatorKeysDirpathOnModuleContainer validatorSecretsDirpathOnModuleContainer
      privateIpAddr sharedDir st).config = some cfg) :
    cfg.entrypointOverrideArgs = ["sh", "-c"] ∧
    ∃ mid tail,
      cfg.cmdOverrideArgs =
        [ "cp -R "
          ++ (sharedDir.GetChildPath env.filepathJoin
                validatorKeysDirpathRelToSharedDirRoot).GetAbsPathOnServiceContainer
          ++ " $HOME/validator-keys && cp -R "
          ++ (sharedDir.GetChildPath env.filepathJoin
                validatorSecretsDirpathRelToSharedDirRoot).GetAbsPathOnServiceContainer
          ++ " $HOME/validator-secrets && /opt/teku/bin/teku "
          ++ mid
          ++ " --validator-keys=$HOME/validator-keys:$HOME/validator-secrets "
          ++ tail ] := by
  have hcfg := supplier_config_some _ _ _ _ _ _ _ _ _ _ _ h
  subst hcfg
  refine ⟨rfl, "--network="
      ++ env.filepathJoin sharedDir.absPathOnServiceContainer "genesis-config.yml"
      ++ " --initial-state="
      ++ env.filepathJoin sharedDir.absPathOnServiceContainer "genesis.ssz"
      ++ " --data-path=/opt/teku/consensus-data --data-storage-mode=PRUNE --p2p-enabled=true --eth1-endpoints=http://"
      ++ elClientContext.ipAddr ++ ":" ++ toString elClientContext.rpcPortNum
      ++ " --Xee-endpoint=http://"
      ++ elClientContext.ipAddr ++ ":" ++ toString elClientContext.rpcPortNum
      ++ " --p2p-advertised-ip=" ++ privateIpAddr
      ++ " --rest-api-enabled=true --rest-api-docs-enabled=true --rest-api-interface=0.0.0.0 --rest-api-port=4000 --rest-api-host-allowlist=* --data-storage-non-canonical-blocks-enabled=true --log-destination=CONSOLE",
    "--Xvalidators-suggested-fee-recipient-address=0x0000000000000000000000000000000000000001"
      ++ bootnodeSuffix bootnodeContext, ?_⟩
  simp only [cmdStrOf_eq, List.cons.injEq, and_true]
  apply String.ext
  simp only [String.data_append, List.append_assoc, SharedPath.GetChildPath,
    SharedPath.GetAbsPathOnServiceContainer, validatorKeysDirpathRelToSharedDirRoot,
    validatorSecretsDirpathRelToSharedDirRoot]
  rfl

set_option maxRecDepth 100000 in
/-- C4, at concrete inputs: with the shared directory `/service/shared` the command begins
with the two copies and then the binary. -/
theorem copy_steps_precede_binary_witness :
    ∃ cfg mid tail, (sampleRun happyScript none sampleSharedDir).config = some cfg ∧
      cfg.entrypointOverrideArgs = ["sh", "-c"] ∧
      cfg.cmdOverrideArgs =
        [ "cp -R /service/shared/validator-keys $HOME/validator-keys && cp -R /service/shared/validator-secrets $HOME/validator-secrets && /opt/teku/bin/teku "
          ++ mid
          ++ " --validator-keys=$HOME/validator-keys:$HOME/validator-secrets "
          ++ tail ] := by
  have hrun : (sampleRun happyScript none sampleSharedDir).config = some _ := rfl
  obtain ⟨hentry, mid, tail, hcmd⟩ := copy_steps_precede_binary _ _ _ _ _ _ _ _ _ _ _ hrun
  exact ⟨_, mid, tail, hrun, hentry, hcmd⟩

/-! ## C5: the command depends on the in-container view only -/

/-- C5: two runs of the supplier that both return a description and agree on the private
address, the peer context, the bootnode context and the in-container view of the shared
directory (with the same path-joining function) produce equal command overrides, whatever the
launcher-side genesis paths, keystore directory paths and launcher-side view of the shared
directory, and whatever the collaborators and worlds of the two runs. -/
theorem command_uses_container_paths_only {σ₁ σ₂ : Type}
    (env₁ : Collaborators σ₁) (env₂ : Collaborators σ₂)
    (bootnodeContext : Option CLClientContext) (elClientContext : ELClientContext)
    (privateIpAddr : String)
    (genesisConfigYml₁ genesisSsz₁ validatorKeysDirpath₁ validatorSecretsDirpath₁ : String)
    (genesisConfigYml₂ genesisSsz₂ validatorKeysDirpath₂ validatorSecretsDirpath₂ : String)
    (sharedDir₁ sharedDir₂ : SharedPath) (st₁ : σ₁) (st₂ : σ₂) (cfg₁ cfg₂ : ContainerConfig)
    (hjoin : env₁.filepathJoin = env₂.filepathJoin)
    (hview : sharedDir₁.GetAbsPathOnServiceContainer = sharedDir₂.GetAbsPathOnServiceContainer)
    (h₁ : (getContainerConfigSupplier env₁ bootnodeContext elClientContext
      genesisConfigYml₁ genesisSsz₁ validatorKeysDirpath₁ validatorSecretsDirpath₁
      privateIpAddr sharedDir₁ st₁).config = some cfg₁)
    (h₂ : (getContainerConfigSupplier env₂ bootnodeContext elClientContext
      genesisConfigYml₂ genesisSsz₂ validatorKeysDirpath₂ validatorSecretsDirpath₂
      privateIpAddr sharedDir₂ st₂).config = some cfg₂) :
    cfg₁.cmdOverrideArgs = cfg₂.cmdOverrideArgs := by
  have hc₁ := supplier_config_some _ _ _ _ _ _ _ _ _ _ _ h₁
  have hc₂ := supplier_config_some _ _ _ _ _ _ _ _ _ _ _ h₂
  subst hc₁ hc₂
  simp only [SharedPath.GetAbsPathOnServiceContainer] at hview
  simp only [cmdStrOf_eq, hjoin, hview]

set_option maxRecDepth 100000 in
/-- C5, at concrete inputs: two runs with different launcher-side genesis paths, keystore
paths and launcher-side shared directories (`/module/shared` and `/other/mount`), the same
in-container view `/service/shared`. -/
theorem command_uses_container_paths_only_witness :
    ∃ cfg₁ cfg₂,
      (getContainerConfigSupplier (scriptedEnv happyScript) (some sampleBootnode) samplePeer
        "/genesis/config.yml" "/genesis/genesis.ssz" "/keystores/teku-keys"
        "/keystores/teku-secrets" "172.16.0.7"
        { absPathOnThisContainer := "/module/shared"
          absPathOnServiceContainer := "/service/shared" } 0).config = some cfg₁ ∧
      (getContainerConfigSupplier (scriptedEnv happyScript) (some sampleBootnode) samplePeer
        "/tmp/other/config.yml" "/tmp/other/genesis.ssz" "/tmp/other/keys"
        "/tmp/other/secrets" "172.16.0.7"
        { absPathOnThisContainer := "/other/mount"
          absPathOnServiceContainer := "/service/shared" } 7).config = some cfg₂ ∧
      cfg₁.cmdOverrideArgs = cfg₂.cmdOverrideArgs :=
  ⟨_, _, rfl, rfl,
    command_uses_container_paths_only (scriptedEnv happyScript) (scriptedEnv happyScript)
      (some sampleBootnode) samplePeer "172.16.0.7"
      "/genesis/config.yml" "/genesis/genesis.ssz" "/keystores/teku-keys"
      "/keystores/teku-secrets"
      "/tmp/other/config.yml" "/tmp/other/genesis.ssz" "/tmp/other/keys" "/tmp/other/secrets"
      { absPathOnThisContainer := "/module/shared"
        absPathOnServiceContainer := "/service/shared" }
      { absPathOnThisContainer := "/other/mount"
        absPathOnServiceContainer := "/service/shared" }
      0 7 _ _ rfl rfl rfl rfl⟩

/-! ## C6: the port table -/

set_option maxRecDepth 100000 in
/-- C6: for every run of the supplier that returns a description, the port table has exactly
three entries, under three different names: `tcp-discovery` is port 9000 over TCP,
`udp-discovery` the same number 9000 over UDP, and `http` port 4000 over TCP; it is this
table for every input, and the number under `http` is the number in the command's
`--rest-api-port=` argument. -/
theorem port_table_fixed {σ : Type} (env : Collaborators σ)
    (bootnodeContext : Option CLClientContext) (elClientContext : ELClientContext)
    (genesisConfigYmlFilepathOnModuleContainer genesisSszFilepathOnModuleContainer : String)
    (validatorKeysDirpathOnModuleContainer validatorSecretsDirpathOnModuleContainer : String)
    (privateIpAddr : String) (sharedDir : SharedPath) (st : σ) (cfg : ContainerConfig)
    (h : (getContainerConfigSupplier env bootnodeContext elClientContext
      genesisConfigYmlFilepathOnModuleContainer genesisSszFilepathOnModuleContainer
      validatorKeysDirpathOnModuleContainer validatorSecretsDirpathOnModuleContainer
      privateIpAddr sharedDir st).config = some cfg) :
    cfg.usedPorts =
      [ ("tcp-discovery", { number := 9000, protocol := PortProtocol.TCP }),
        ("udp-discovery", { number := 9000, protocol := PortProtocol.UDP }),
        ("http", { number := 4000, protocol := PortProtocol.TCP }) ] ∧
    cfg.usedPorts.length = 3 ∧
    (cfg.usedPorts.map Prod.fst).Nodup ∧
    ∃ httpPort cmdStr pre post,
      cfg.usedPorts.lookup "http" = some httpPort ∧
      cfg.cmdOverrideArgs = [cmdStr] ∧
      cmdStr = pre ++ " --rest-api-port=" ++ toString httpPort.GetNumber ++ " " ++ post := by
  have hcfg := supplier_config_some _ _ _ _ _ _ _ _ _ _ _ h
  subst hcfg
  refine ⟨rfl, rfl, (by decide : (usedPorts.map Prod.fst).Nodup), { number := 4000, protocol := PortProtocol.TCP }, _,
    "cp -R " ++ env.filepathJoin sharedDir.absPathOnServiceContainer "validator-keys"
      ++ " $HOME/validator-keys && cp -R "
      ++ env.filepathJoin sharedDir.absPathOnServiceContainer "validator-secrets"
      ++ " $HOME/validator-secrets && /opt/teku/bin/teku --network="
      ++ env.filepathJoin sharedDir.absPathOnServiceContainer "genesis-config.yml"
      ++ " --initial-state="
      ++ env.filepathJoin sharedDir.absPathOnServiceContainer "genesis.ssz"
      ++ " --data-path=/opt/teku/consensus-data --data-storage-mode=PRUNE --p2p-enabled=true --eth1-endpoints=http://"
      ++ elClientContext.ipAddr ++ ":" ++ toString elClientContext.rpcPortNum
      ++ " --Xee-endpoint=http://"
      ++ elClientContext.ipAddr ++ ":" ++ toString elClientContext.rpcPortNum
      ++ " --p2p-advertised-ip=" ++ privateIpAddr
      ++ " --rest-api-enabled=true --rest-api-docs-enabled=true --rest-api-interface=0.0.0.0",
    "--rest-api-host-allowlist=* --data-storage-non-canonical-blocks-enabled=true --log-destination=CONSOLE --validator-keys=$HOME/validator-keys:$HOME/validator-secrets --Xvalidators-suggested-fee-recipient-address=0x0000000000000000000000000000000000000001"
      ++ bootnodeSuffix bootnodeContext,
    (by decide : usedPorts.lookup "http"
      = some { number := 4000, protocol := PortProtocol.TCP }), rfl, ?_⟩
  rw [cmdStrOf_eq]
  apply String.ext
  simp only [String.data_append, List.append_assoc, PortSpec.GetNumber]
  rfl

set_option maxRecDepth 100000 in
/-- C6, at concrete inputs: the description of a run with peer `10.0.0.5:8551` has the three
ports, and its command holds `--rest-api-port=4000`. -/
theorem port_table_fixed_witness :
    ∃ cfg cmdStr pre post, (sampleRun happyScript none sampleSharedDir).config = some cfg ∧
      cfg.usedPorts =
        [ ("tcp-discovery", { number := 9000, protocol := PortProtocol.TCP }),
          ("udp-discovery", { number := 9000, protocol := PortProtocol.UDP }),
          ("http", { number := 4000, protocol := PortProtocol.TCP }) ] ∧
      cfg.cmdOverrideArgs = [cmdStr] ∧
      cmdStr = pre ++ " --rest-api-port=" ++ "4000" ++ " " ++ post := by
  have hrun : (sampleRun happyScript none sampleSharedDir).config = some _ := rfl
  obtain ⟨hports, _, _, httpPort, cmdStr, pre, post, hlook, hcmd, hform⟩ :=
    port_table_fixed _ _ _ _ _ _ _ _ _ _ _ hrun
  rw [hports] at hlook
  have hp : httpPort = { number := 4000, protocol := PortProtocol.TCP } := by
    have h2 : (some { number := 4000, protocol := PortProtocol.TCP } : Option PortSpec)
        = some httpPort := hlook
    exact (Option.some.inj h2).symm
  subst hp
  exact ⟨_, cmdStr, pre, post, hrun, hports, hcmd, hform⟩

/-! ## C7: the port handed to the REST client -/

/-- C7, as stated, fails: when the scheduler's handle lists `http` as port 5000, `Launch`
reaches the availability wait and the identity query with a REST client on port 5000, while
the description exposed `http` as 4000 and the returned context stores 4000. -/
theorem rest_client_port_counterexample :
    (Launch (scriptedEnv { happyScript with
        ports := fun _ => [("http", { number := 5000, protocol := PortProtocol.TCP })] })
      sampleLauncher "cl-client-0" none samplePeer sampleKeystore 0).calls
      = [ LaunchCall.addService "cl-client-0",
          LaunchCall.portLookup "http",
          LaunchCall.waitForAvailability { ipAddr := "172.16.0.7", portNum := 5000 }
            60 1000000000,
          LaunchCall.getNodeIdentity { ipAddr := "172.16.0.7", portNum := 5000 } ] ∧
    (Launch (scriptedEnv { happyScript with
        ports := fun _ => [("http", { number := 5000, protocol := PortProtocol.TCP })] })
      sampleLauncher "cl-client-0" none samplePeer sampleKeystore 0).resultClientCtx
      = some { enr := "enr:NEW", ipAddr := "172.16.0.7", httpPortNum := 4000 } ∧
    usedPorts.lookup "http" = some { number := 4000, protocol := PortProtocol.TCP } := by
  refine ⟨rfl, rfl, by decide⟩

/-- C7 (amended): for every run of `Launch` that reaches the availability wait (the scheduler
call succeeds and the handle has a port named `http`), the REST client used by the
availability wait, and by the identity query when it is issued, is built with the handle's
private address and the number of the handle's `http` port; a returned context stores the
constant 4000, which is the number the description exposes under `http`; so the three numbers
are equal whenever the handle lists `http` with the description's number. -/
theorem rest_client_port_from_handle {σ : Type} (env : Collaborators σ)
    (launcher : TekuCLClientLauncher) (serviceId : String)
    (bootnodeContext : Option CLClientContext) (elClientContext : ELClientContext)
    (nodeKeystoreDirpaths : NodeTypeKeystoreDirpaths) (st0 st1 : σ)
    (serviceCtx : ServiceContext) (httpPort : PortSpec)
    (hadd : env.AddService serviceId
      (getContainerConfigSupplier env bootnodeContext elClientContext
        launcher.genesisConfigYmlFilepathOnModuleContainer
        launcher.genesisSszFilepathOnModuleContainer
        nodeKeystoreDirpaths.TekuKeysDirpath nodeKeystoreDirpaths.TekuSecretsDirpath) st0
      = (Except.ok serviceCtx, st1))
    (hport : serviceCtx.GetPrivatePorts.lookup httpPortID = some httpPort) :
    (∃ rest,
      (Launch env launcher serviceId bootnodeContext elClientContext nodeKeystoreDirpaths
        st0).calls
        = [ LaunchCall.addService serviceId,
            LaunchCall.portLookup "http",
            LaunchCall.waitForAvailability
              { ipAddr := serviceCtx.GetPrivateIPAddress, portNum := httpPort.GetNumber }
              60 1000000000 ] ++ rest ∧
      (rest = [] ∨ rest = [ LaunchCall.getNodeIdentity
          { ipAddr := serviceCtx.GetPrivateIPAddress, portNum := httpPort.GetNumber } ])) ∧
    (∀ ctx, (Launch env launcher serviceId bootnodeContext elClientContext nodeKeystoreDirpaths
        st0).resultClientCtx = some ctx → ctx.httpPortNum = 4000) ∧
    usedPorts.lookup "http" = some { number := 4000, protocol := PortProtocol.TCP } ∧
    (httpPort.GetNumber = 4000 →
      ∀ ctx, (Launch env launcher serviceId bootnodeContext elClientContext
        nodeKeystoreDirpaths st0).resultClientCtx = some ctx →
        ctx.httpPortNum = httpPort.GetNumber) := by
  have hctx : ∀ ctx, (Launch env launcher serviceId bootnodeContext elClientContext
      nodeKeystoreDirpaths st0).resultClientCtx = some ctx → ctx.httpPortNum = 4000 := by
    intro ctx hc
    unfold Launch at hc
    simp only [hadd, hport] at hc
    split at hc
    · simp at hc
    · split at hc
      · simp at hc
      · simp only [Option.some.injEq] at hc
        rw [← hc]; rfl
  refine ⟨?_, hctx, by decide, fun h4 ctx hc => (hctx ctx hc).trans h4.symm⟩
  unfold Launch
  simp only [hadd, hport]
  split
  · exact ⟨[], rfl, Or.inl rfl⟩
  · split
    · exact ⟨_, rfl, Or.inr rfl⟩
    · exact ⟨_, rfl, Or.inr rfl⟩

/-- C7 (amended), at concrete inputs: a scheduler that lists the description's ports in the
handle; the REST client is on port 4000, the port of the returned context. -/
theorem rest_client_port_from_handle_witness :
    (∃ rest,
      (Launch (scriptedEnv happyScript) sampleLauncher "cl-client-0" none samplePeer
        sampleKeystore 0).calls
        = [ LaunchCall.addService "cl-client-0",
            LaunchCall.portLookup "http",
            LaunchCall.waitForAvailability { ipAddr := "172.16.0.7", portNum := 4000 }
              60 1000000000 ] ++ rest ∧
      (rest = [] ∨
        rest = [ LaunchCall.getNodeIdentity { ipAddr := "172.16.0.7", portNum := 4000 } ])) ∧
    ∀ ctx, (Launch (scriptedEnv happyScript) sampleLauncher "cl-client-0" none samplePeer
      sampleKeystore 0).resultClientCtx = some ctx → ctx.httpPortNum = 4000 := by
  have h := rest_client_port_from_handle (scriptedEnv happyScript) sampleLauncher "cl-client-0"
    none samplePeer sampleKeystore 0 4
    { privateIpAddr := "172.16.0.7", privatePorts := usedPorts }
    { number := 4000, protocol := PortProtocol.TCP } rfl (by decide)
  exact ⟨h.1, h.2.1⟩

/-! ## C8: the result of Launch -/

/-- C8: for every behaviour of the collaborators, `Launch` returns either a context with a
nil error or a nil context with a non-nil error; it returns a context exactly when the
scheduler call succeeds, the handle has a port named `http`, the availability wait (for that
handle's address and port, 60 retries, one second apart) succeeds and the identity query
succeeds, each on the world the previous call left; the context then holds the identity
record the query returned, the handle's private address and the port number 4000. -/
theorem launch_result {σ : Type} (env : Collaborators σ)
    (launcher : TekuCLClientLauncher) (serviceId : String)
    (bootnodeContext : Option CLClientContext) (elClientContext : ELClientContext)
    (nodeKeystoreDirpaths : NodeTypeKeystoreDirpaths) (st0 : σ) :
    (((Launch env launcher serviceId bootnodeContext elClientContext nodeKeystoreDirpaths
          st0).resultClientCtx.isSome ∧
        (Launch env launcher serviceId bootnodeContext elClientContext nodeKeystoreDirpaths
          st0).resultErr = none) ∨
      ((Launch env launcher serviceId bootnodeContext elClientContext nodeKeystoreDirpaths
          st0).resultClientCtx = none ∧
        (Launch env launcher serviceId bootnodeContext elClientContext nodeKeystoreDirpaths
          st0).resultErr.isSome)) ∧
    (∀ ctx,
      (Launch env launcher serviceId bootnodeContext elClientContext nodeKeystoreDirpaths
        st0).resultClientCtx = some ctx ↔
      ∃ serviceCtx st1 httpPort st2 nodeIdentity st3,
        env.AddService serviceId
          (getContainerConfigSupplier env bootnodeContext elClientContext
            launcher.genesisConfigYmlFilepathOnModuleContainer
            launcher.genesisSszFilepathOnModuleContainer
            nodeKeystoreDirpaths.TekuKeysDirpath nodeKeystoreDirpaths.TekuSecretsDirpath) st0
          = (Except.ok serviceCtx, st1) ∧
        serviceCtx.GetPrivatePorts.lookup "http" = some httpPort ∧
        env.WaitForCLClientAvailability
          { ipAddr := serviceCtx.GetPrivateIPAddress, portNum := httpPort.GetNumber }
          60 1000000000 st1 = (none, st2) ∧
        env.GetNodeIdentity
          { ipAddr := serviceCtx.GetPrivateIPAddress, portNum := httpPort.GetNumber } st2
          = (Except.ok nodeIdentity, st3) ∧
        ctx = { enr := nodeIdentity.ENR, ipAddr := serviceCtx.GetPrivateIPAddress,
                httpPortNum := 4000 }) := by
  unfold Launch
  simp only
  split
  · rename_i err st1 hadd
    refine ⟨Or.inr ⟨rfl, rfl⟩, fun ctx => ⟨fun h => by simp at h, ?_⟩⟩
    rintro ⟨serviceCtx, st1', httpPort, st2, nodeIdentity, st3, h1, -⟩
    rw [hadd] at h1
    simp at h1
  · rename_i serviceCtx st1 hadd
    split
    · rename_i hport
      refine ⟨Or.inr ⟨rfl, rfl⟩, fun ctx => ⟨fun h => by simp at h, ?_⟩⟩
      rintro ⟨serviceCtx', st1', httpPort, st2, nodeIdentity, st3, h1, h2, -⟩
      rw [hadd] at h1
      simp only [Prod.mk.injEq, Except.ok.injEq] at h1
      obtain ⟨rfl, rfl⟩ := h1
      rw [show httpPortID = "http" from rfl] at hport
      rw [hport] at h2
      simp at h2
    · rename_i httpPort hport
      split
      · rename_i err st2 hwait
        refine ⟨Or.inr ⟨rfl, rfl⟩, fun ctx => ⟨fun h => by simp at h, ?_⟩⟩
        rintro ⟨serviceCtx', st1', httpPort', st2', nodeIdentity, st3, h1, h2, h3, -⟩
        rw [hadd] at h1
        simp only [Prod.mk.injEq, Except.ok.injEq] at h1
        obtain ⟨rfl, rfl⟩ := h1
        rw [show httpPortID = "http" from rfl] at hport
        rw [hport] at h2
        simp only [Option.some.injEq] at h2
        subst h2
        have hwait' : env.WaitForCLClientAvailability
          { ipAddr := serviceCtx.GetPrivateIPAddress, portNum := httpPort.GetNumber }
          60 1000000000 st1 = (some err, st2) := hwait
        rw [hwait'] at h3
        simp at h3
      · rename_i st2 hwait
        split
        · rename_i err st3 hid
          refine ⟨Or.inr ⟨rfl, rfl⟩, fun ctx => ⟨fun h => by simp at h, ?_⟩⟩
          rintro ⟨serviceCtx', st1', httpPort', st2', nodeIdentity, st3', h1, h2, h3, h4, -⟩
          rw [hadd] at h1
          simp only [Prod.mk.injEq, Except.ok.injEq] at h1
          obtain ⟨rfl, rfl⟩ := h1
          rw [show httpPortID = "http" from rfl] at hport
          rw [hport] at h2
          simp only [Option.some.injEq] at h2
          subst h2
          have hwait' : env.WaitForCLClientAvailability
            { ipAddr := serviceCtx.GetPrivateIPAddress, portNum := httpPort.GetNumber }
            60 1000000000 st1 = (none, st2) := hwait
          rw [hwait'] at h3
          simp only [Prod.mk.injEq, true_and] at h3
          subst h3
          have hid' : env.GetNodeIdentity
            { ipAddr := serviceCtx.GetPrivateIPAddress, portNum := httpPort.GetNumber } st2
            = (Except.error err, st3) := hid
          rw [hid'] at h4
          simp at h4
        · rename_i nodeIdentity st3 hid
          refine ⟨Or.inl ⟨rfl, rfl⟩, fun ctx => ⟨fun h => ?_, ?_⟩⟩
          · simp only [Option.some.injEq] at h
            exact ⟨serviceCtx, st1, httpPort, st2, nodeIdentity, st3, hadd, hport, hwait, hid,
              h.symm⟩
          · rintro ⟨serviceCtx', st1', httpPort', st2', nodeIdentity', st3', h1, h2, h3, h4, h5⟩
            rw [hadd] at h1
            simp only [Prod.mk.injEq, Except.ok.injEq] at h1
            obtain ⟨rfl, rfl⟩ := h1
            rw [show httpPortID = "http" from rfl] at hport
            rw [hport] at h2
            simp only [Option.some.injEq] at h2
            subst h2
            have hwait' : env.WaitForCLClientAvailability
              { ipAddr := serviceCtx.GetPrivateIPAddress, portNum := httpPort.GetNumber }
              60 1000000000 st1 = (none, st2) := hwait
            rw [hwait'] at h3
            simp only [Prod.mk.injEq, true_and] at h3
            subst h3
            have hid' : env.GetNodeIdentity
              { ipAddr := serviceCtx.GetPrivateIPAddress, portNum := httpPort.GetNumber } st2
              = (Except.ok nodeIdentity, st3) := hid
            rw [hid'] at h4
            simp only [Prod.mk.injEq, Except.ok.injEq] at h4
            obtain ⟨rfl, rfl⟩ := h4
            rw [h5]
            rfl

/-! ## C9: Launch is fail-fast -/

/-- C9: for every behaviour of the collaborators, the calls `Launch` issues are, in order, a
beginning of: the scheduler call, the look-up of the `http` port, the availability wait, the
identity query, so no stage is invoked more than once; if the scheduler call fails, that call
is the only one (no port look-up, no availability wait and so no liveness request, no identity
query); if the handle lacks the `http` port name, `Launch` fails after the look-up, with no
availability wait and no identity query; if the availability wait fails, the identity query
is not issued. -/
theorem launch_fail_fast {σ : Type} (env : Collaborators σ)
    (launcher : TekuCLClientLauncher) (serviceId : String)
    (bootnodeContext : Option CLClientContext) (elClientContext : ELClientContext)
    (nodeKeystoreDirpaths : NodeTypeKeystoreDirpaths) (st0 : σ) :
    ((Launch env launcher serviceId bootnodeContext elClientContext nodeKeystoreDirpaths
        st0).calls.map LaunchCall.stage
      <+: [Stage.scheduling, Stage.portCheck, Stage.waitingForAvailability,
        Stage.resolvingIdentity]) ∧
    (∀ err st1,
      env.AddService serviceId
        (getContainerConfigSupplier env bootnodeContext elClientContext
          launcher.genesisConfigYmlFilepathOnModuleContainer
          launcher.genesisSszFilepathOnModuleContainer
          nodeKeystoreDirpaths.TekuKeysDirpath nodeKeystoreDirpaths.TekuSecretsDirpath) st0
        = (Except.error err, st1) →
      (Launch env launcher serviceId bootnodeContext elClientContext nodeKeystoreDirpaths
        st0).calls = [LaunchCall.addService serviceId] ∧
      (Launch env launcher serviceId bootnodeContext elClientContext nodeKeystoreDirpaths
        st0).resultClientCtx = none ∧
      (Launch env launcher serviceId bootnodeContext elClientContext nodeKeystoreDirpaths
        st0).resultErr.isSome) ∧
    (∀ serviceCtx st1,
      env.AddService serviceId
        (getContainerConfigSupplier env bootnodeContext elClientContext
          launcher.genesisConfigYmlFilepathOnModuleContainer
          launcher.genesisSszFilepathOnModuleContainer
          nodeKeystoreDirpaths.TekuKeysDirpath nodeKeystoreDirpaths.TekuSecretsDirpath) st0
        = (Except.ok serviceCtx, st1) →
      serviceCtx.GetPrivatePorts.lookup "http" = none →
      (Launch env launcher serviceId bootnodeContext elClientContext nodeKeystoreDirpaths
        st0).calls = [LaunchCall.addService serviceId, LaunchCall.portLookup "http"] ∧
      (Launch env launcher serviceId bootnodeContext elClientContext nodeKeystoreDirpaths
        st0).resultClientCtx = none ∧
      (Launch env launcher serviceId bootnodeContext elClientContext nodeKeystoreDirpaths
        st0).resultErr = some (Error.newError
          "Expected new Teku service to have port with ID 'http', but none was found")) ∧
    (∀ serviceCtx st1 httpPort err st2,
      env.AddService serviceId
        (getContainerConfigSupplier env bootnodeContext elClientContext
          launcher.genesisConfigYmlFilepathOnModuleContainer
          launcher.genesisSszFilepathOnModuleContainer
          nodeKeystoreDirpaths.TekuKeysDirpath nodeKeystoreDirpaths.TekuSecretsDirpath) st0
        = (Except.ok serviceCtx, st1) →
      serviceCtx.GetPrivatePorts.lookup "http" = some httpPort →
      env.WaitForCLClientAvailability
        { ipAddr := serviceCtx.GetPrivateIPAddress, portNum := httpPort.GetNumber }
        60 1000000000 st1 = (some err, st2) →
      (Launch env launcher serviceId bootnodeContext elClientContext nodeKeystoreDirpaths
        st0).calls
        = [ LaunchCall.addService serviceId, LaunchCall.portLookup "http",
            LaunchCall.waitForAvailability
              { ipAddr := serviceCtx.GetPrivateIPAddress, portNum := httpPort.GetNumber }
              60 1000000000 ] ∧
      (Launch env launcher serviceId bootnodeContext elClientContext nodeKeystoreDirpaths
        st0).resultClientCtx = none ∧
      (Launch env launcher serviceId bootnodeContext elClientContext nodeKeystoreDirpaths
        st0).resultErr.isSome) := by
  refine ⟨?_, ?_, ?_, ?_⟩
  · unfold Launch
    simp only
    split
    · exact ⟨[_, _, _], rfl⟩
    · split
      · exact ⟨[_, _], rfl⟩
      · split
        · exact ⟨[_], rfl⟩
        · split
          · exact ⟨[], rfl⟩
          · exact ⟨[], rfl⟩
  · intro err st1 hadd
    unfold Launch
    simp only [hadd]
    refine ⟨?_, ?_, ?_⟩ <;> trivial
  · intro serviceCtx st1 hadd hport
    have hport' : serviceCtx.GetPrivatePorts.lookup httpPortID = none := hport
    unfold Launch
    simp only [hadd, hport']
    refine ⟨?_, ?_, ?_⟩ <;> trivial
  · intro serviceCtx st1 httpPort err st2 hadd hport hwait
    have hport' : serviceCtx.GetPrivatePorts.lookup httpPortID = some httpPort := hport
    have hwait' : env.WaitForCLClientAvailability
        (NewCLClientRESTClient serviceCtx.GetPrivateIPAddress httpPort.GetNumber)
        maxNumHealthcheckRetries timeBetweenHealthcheckRetries st1 = (some err, st2) := hwait
    unfold Launch
    simp only [hadd, hport', hwait']
    refine ⟨?_, ?_, ?_⟩ <;> trivial

/-- C9, at concrete inputs: a scheduler whose handle lists no port; `Launch` stops after the
look-up of `http`, without availability wait or identity query. -/
theorem launch_fail_fast_witness :
    (Launch (scriptedEnv { happyScript with ports := fun _ => [] }) sampleLauncher
        "cl-client-0" none samplePeer sampleKeystore 0).calls
      = [LaunchCall.addService "cl-client-0", LaunchCall.portLookup "http"] ∧
    (Launch (scriptedEnv { happyScript with ports := fun _ => [] }) sampleLauncher
        "cl-client-0" none samplePeer sampleKeystore 0).resultClientCtx = none ∧
    (Launch (scriptedEnv { happyScript with ports := fun _ => [] }) sampleLauncher
        "cl-client-0" none samplePeer sampleKeystore 0).resultErr = some (Error.newError
          "Expected new Teku service to have port with ID 'http', but none was found") :=
  (launch_fail_fast (scriptedEnv { happyScript with ports := fun _ => [] }) sampleLauncher
    "cl-client-0" none samplePeer sampleKeystore 0).2.2.1
    { privateIpAddr := "172.16.0.7", privatePorts := [] } 4 rfl rfl

/-! ## C10: staging order and failure -/

/-- C10: for every behaviour of the collaborators, the copies the supplier issues are, in
order, a non-empty beginning of the four copies genesis config file, genesis state file,
validator keys directory, validator secrets directory (to the shared children
`genesis-config.yml`, `genesis.ssz`, `validator-keys`, `validator-secrets`); the supplier
returns a description with a nil error if and only if all four copies succeed, each on the
world the previous one left, and otherwise a nil description with a non-nil error; if the
k-th copy issued fails, no copy is issued after it, the description is nil (no command is
assembled) and the error wraps the copy's error. -/
theorem staging_order_and_failure {σ : Type} (env : Collaborators σ)
    (bootnodeContext : Option CLClientContext) (elClientContext : ELClientContext)
    (genesisConfigYmlFilepathOnModuleContainer genesisSszFilepathOnModuleContainer : String)
    (validatorKeysDirpathOnModuleContainer validatorSecretsDirpathOnModuleContainer : String)
    (privateIpAddr : String) (sharedDir : SharedPath) (st : σ) :
    ((getContainerConfigSupplier env bootnodeContext elClientContext
        genesisConfigYmlFilepathOnModuleContainer genesisSszFilepathOnModuleContainer
        validatorKeysDirpathOnModuleContainer validatorSecretsDirpathOnModuleContainer
        privateIpAddr sharedDir st).calls
      <+: stagingPlan env.filepathJoin
        genesisConfigYmlFilepathOnModuleContainer genesisSszFilepathOnModuleContainer
        validatorKeysDirpathOnModuleContainer validatorSecretsDirpathOnModuleContainer
        sharedDir) ∧
    (getContainerConfigSupplier env bootnodeContext elClientContext
        genesisConfigYmlFilepathOnModuleContainer genesisSszFilepathOnModuleContainer
        validatorKeysDirpathOnModuleContainer validatorSecretsDirpathOnModuleContainer
        privateIpAddr sharedDir st).calls ≠ [] ∧
    (((getContainerConfigSupplier env bootnodeContext elClientContext
          genesisConfigYmlFilepathOnModuleContainer genesisSszFilepathOnModuleContainer
          validatorKeysDirpathOnModuleContainer validatorSecretsDirpathOnModuleContainer
          privateIpAddr sharedDir st).config.isSome ∧
        (getContainerConfigSupplier env bootnodeContext elClientContext
          genesisConfigYmlFilepathOnModuleContainer genesisSszFilepathOnModuleContainer
          validatorKeysDirpathOnModuleContainer validatorSecretsDirpathOnModuleContainer
          privateIpAddr sharedDir st).err = none) ∨
      ((getContainerConfigSupplier env bootnodeContext elClientContext
          genesisConfigYmlFilepathOnModuleContainer genesisSszFilepathOnModuleContainer
          validatorKeysDirpathOnModuleContainer validatorSecretsDirpathOnModuleContainer
          privateIpAddr sharedDir st).config = none ∧
        (getContainerConfigSupplier env bootnodeContext elClientContext
          genesisConfigYmlFilepathOnModuleContainer genesisSszFilepathOnModuleContainer
          validatorKeysDirpathOnModuleContainer validatorSecretsDirpathOnModuleContainer
          privateIpAddr sharedDir st).err.isSome)) ∧
    ((getContainerConfigSupplier env bootnodeContext elClientContext
        genesisConfigYmlFilepathOnModuleContainer genesisSszFilepathOnModuleContainer
        validatorKeysDirpathOnModuleContainer validatorSecretsDirpathOnModuleContainer
        privateIpAddr sharedDir st).config.isSome ↔
      stagingOutcomes env
        (stagingPlan env.filepathJoin
          genesisConfigYmlFilepathOnModuleContainer genesisSszFilepathOnModuleContainer
          validatorKeysDirpathOnModuleContainer validatorSecretsDirpathOnModuleContainer
          sharedDir) st = [none, none, none, none]) ∧
    (∀ k e,
      (stagingOutcomes env
        (getContainerConfigSupplier env bootnodeContext elClientContext
          genesisConfigYmlFilepathOnModuleContainer genesisSszFilepathOnModuleContainer
          validatorKeysDirpathOnModuleContainer validatorSecretsDirpathOnModuleContainer
          privateIpAddr sharedDir st).calls st)[k]? = some (some e) →
      (getContainerConfigSupplier env bootnodeContext elClientContext
          genesisConfigYmlFilepathOnModuleContainer genesisSszFilepathOnModuleContainer
          validatorKeysDirpathOnModuleContainer validatorSecretsDirpathOnModuleContainer
          privateIpAddr sharedDir st).calls.length = k + 1 ∧
      (getContainerConfigSupplier env bootnodeContext elClientContext
          genesisConfigYmlFilepathOnModuleContainer genesisSszFilepathOnModuleContainer
          validatorKeysDirpathOnModuleContainer validatorSecretsDirpathOnModuleContainer
          privateIpAddr sharedDir st).config = none ∧
      ∃ msg, (getContainerConfigSupplier env bootnodeContext elClientContext
          genesisConfigYmlFilepathOnModuleContainer genesisSszFilepathOnModuleContainer
          validatorKeysDirpathOnModuleContainer validatorSecretsDirpathOnModuleContainer
          privateIpAddr sharedDir st).err = some (Error.propagate e msg)) := by
  unfold getContainerConfigSupplier stagingPlan
  simp only [genesisConfigYmlRelFilepathInSharedDir, genesisSszRelFilepathInSharedDir,
    validatorKeysDirpathRelToSharedDirRoot, validatorSecretsDirpathRelToSharedDirRoot,
    SharedPath.GetAbsPathOnThisContainer]
  split
  · rename_i e1 s1 h1
    refine ⟨⟨[_, _, _], rfl⟩, by simp, Or.inr ⟨rfl, rfl⟩, ?_, ?_⟩
    · simp [stagingOutcomes, StagingCall.run, h1]
    · intro k e hk
      simp only [stagingOutcomes, StagingCall.run, h1] at hk
      rcases k with _ | k
      · simp only [List.getElem?_cons_zero, Option.some.injEq] at hk
        subst hk
        exact ⟨rfl, rfl, _, rfl⟩
      · simp at hk
  · rename_i s1 h1
    split
    · rename_i e2 s2 h2
      refine ⟨⟨[_, _], rfl⟩, by simp, Or.inr ⟨rfl, rfl⟩, ?_, ?_⟩
      · simp [stagingOutcomes, StagingCall.run, h1, h2]
      · intro k e hk
        simp only [stagingOutcomes, StagingCall.run, h1, h2] at hk
        rcases k with _ | _ | k
        · simp at hk
        · simp only [List.getElem?_cons_succ, List.getElem?_cons_zero,
            Option.some.injEq] at hk
          subst hk
          exact ⟨rfl, rfl, _, rfl⟩
        · simp at hk
    · rename_i s2 h2
      split
      · rename_i e3 s3 h3
        refine ⟨⟨[_], rfl⟩, by simp, Or.inr ⟨rfl, rfl⟩, ?_, ?_⟩
        · simp [stagingOutcomes, StagingCall.run, h1, h2, h3]
        · intro k e hk
          simp only [stagingOutcomes, StagingCall.run, h1, h2, h3] at hk
          rcases k with _ | _ | _ | k
          · simp at hk
          · simp at hk
          · simp only [List.getElem?_cons_succ, List.getElem?_cons_zero,
              Option.some.injEq] at hk
            subst hk
            exact ⟨rfl, rfl, _, rfl⟩
          · simp at hk
      · rename_i s3 h3
        split
        · rename_i e4 s4 h4
          refine ⟨⟨[], rfl⟩, by simp, Or.inr ⟨rfl, rfl⟩, ?_, ?_⟩
          · simp [stagingOutcomes, StagingCall.run, h1, h2, h3, h4]
          · intro k e hk
            simp only [stagingOutcomes, StagingCall.run, h1, h2, h3, h4] at hk
            rcases k with _ | _ | _ | _ | k
            · simp at hk
            · simp at hk
            · simp at hk
            · simp only [List.getElem?_cons_succ, List.getElem?_cons_zero,
                Option.some.injEq] at hk
              subst hk
              exact ⟨rfl, rfl, _, rfl⟩
            · simp at hk
        · rename_i s4 h4
          refine ⟨⟨[], rfl⟩, by simp, Or.inl ⟨rfl, rfl⟩, ?_, ?_⟩
          · simp [stagingOutcomes, StagingCall.run, h1, h2, h3, h4]
          · intro k e hk
            simp only [stagingOutcomes, StagingCall.run, h1, h2, h3, h4] at hk
            rcases k with _ | _ | _ | _ | k <;> simp at hk

/-- C10, at concrete inputs: when the third copy (the validator keys directory) fails, three
copies have been issued, no description is returned and the error wraps the copy's error. -/
theorem staging_order_and_failure_witness :
    (sampleRun { happyScript with failingCopy := some 2 } none sampleSharedDir).calls.length
      = 2 + 1 ∧
    (sampleRun { happyScript with failingCopy := some 2 } none sampleSharedDir).config = none ∧
    ∃ msg, (sampleRun { happyScript with failingCopy := some 2 } none sampleSharedDir).err
      = some (Error.propagate (Error.external "copy failed") msg) :=
  (staging_order_and_failure (scriptedEnv { happyScript with failingCopy := some 2 }) none
    samplePeer "/genesis/config.yml" "/genesis/genesis.ssz" "/keystores/teku-keys"
    "/keystores/teku-secrets" "172.16.0.7" sampleSharedDir 0).2.2.2.2 2
    (Error.external "copy failed") rfl

end Teku
